import Mathlib

/-!
Verification development for the service-insertion pipeline of
`platform_management/cli/insert_services.py`.

The Python source is shallowly embedded: pure functions of the source become
Lean functions, database tables become lists inside a `DB` structure, PostGIS
spatial primitives become fields of an explicit `GeoOracle`, and Python
exceptions become an `Except PyExc` monad.  Each definition carries a doc
comment naming the source lines it embeds.
-/

namespace InsertServices

/-- A (simplified) universe of Python values as they occur in the rows handled
by the pipeline: `none` is Python `None`, `nan` is a float NaN (a value that is
not equal to itself), plus strings, ints, rationals standing for floats, and
booleans. -/
inductive PyValue where
  | none : PyValue
  | nan : PyValue
  | str (s : String) : PyValue
  | int (n : Int) : PyValue
  | num (q : ℚ) : PyValue
  | bool (b : Bool) : PyValue
deriving DecidableEq, Repr

/-- Python `==` on the embedded values: NaN is not equal to anything (itself
included), `True == 1`, `False == 0`, and ints and floats compare numerically;
all other cross-type comparisons are unequal. -/
def pyEq : PyValue → PyValue → Bool
  | .nan, _ => false
  | _, .nan => false
  | .none, .none => true
  | .str a, .str b => a = b
  | .int a, .int b => a = b
  | .num a, .num b => a = b
  | .int a, .num b => (a : ℚ) = b
  | .num a, .int b => a = (b : ℚ)
  | .bool a, .bool b => a = b
  | .bool a, .int b => (if a then (1 : Int) else 0) = b
  | .int a, .bool b => a = (if b then (1 : Int) else 0)
  | .bool a, .num b => (if a then (1 : ℚ) else 0) = b
  | .num a, .bool b => a = (if b then (1 : ℚ) else 0)
  | _, _ => false

/-- The nullish test opening `SQLType.cast` (insert_services.py lines 66-71):
`value is None or value != value or (isinstance(value, str) and value == "")`. -/
def isNullish (v : PyValue) : Bool :=
  v = PyValue.none || !pyEq v v || v = PyValue.str ""

/-- Python `str.lower` restricted to the Latin and Cyrillic alphabets the
pipeline's token tables use (other characters are returned unchanged). -/
def pyCharLower (c : Char) : Char :=
  if 'A' ≤ c ∧ c ≤ 'Z' then Char.ofNat (c.toNat + 32)
  else if 'А' ≤ c ∧ c ≤ 'Я' then Char.ofNat (c.toNat + 32)
  else if c = 'Ё' then 'ё'
  else c

/-- Python `str.lower` on a whole string (see `pyCharLower`). -/
def pyLower (s : String) : String :=
  String.mk (s.data.map pyCharLower)

/-- Prefix test on character lists, by structural recursion (the core
`String.startsWith` does not reduce in the kernel, so the embedding uses this
executable equivalent). -/
def charsLeadWith : List Char → List Char → Bool
  | [], _ => true
  | _ :: _, [] => false
  | a :: as, b :: bs => a = b && charsLeadWith as bs

/-- Python `str.startswith` with a single string argument. -/
def strStartsWith (s p : String) : Bool := charsLeadWith p.data s.data

/-- SQL `LIKE '%suffix'` / Python endswith: `s` ends with `p`. -/
def strEndsWith (s p : String) : Bool := charsLeadWith p.data.reverse s.data.reverse

/-- Python `str.strip(chars)`: drop characters of `chars` from both ends. -/
def pyStripChars (chars : List Char) (s : String) : String :=
  String.mk (((s.data.dropWhile (chars.contains ·)).reverse.dropWhile
    (chars.contains ·)).reverse)

/-- Python `str.replace(old, "")` specialized to removing one character. -/
def pyRemoveChar (c : Char) (s : String) : String :=
  String.mk (s.data.filter (· ≠ c))

/-- Python `str.strip()`: remove ASCII whitespace from both ends. -/
def pyStrip (s : String) : String :=
  pyStripChars [' ', '\t', '\n', '\r'] s

/-- The embedded SQL storage types (insert_services.py lines 36-43). -/
inductive SQLType where
  | INT | VARCHAR | DOUBLE | BOOLEAN | SMALLINT | JSONB | TIMESTAMP
deriving DecidableEq, Repr

/-- Source: `sqltype_mapping` (insert_services.py lines 94-107): the synonym table
from lowercase type names to `SQLType`, in source order. -/
def sqltypeMapping : List (String × SQLType) :=
  [("character varying", .VARCHAR), ("varchar", .VARCHAR), ("str", .VARCHAR),
   ("string", .VARCHAR), ("text", .VARCHAR), ("varchar", .VARCHAR), ("строка", .VARCHAR),
   ("double precision", .DOUBLE), ("float", .DOUBLE), ("double", .DOUBLE),
   ("вещественное", .DOUBLE), ("нецелое", .DOUBLE),
   ("integer", .INT), ("int", .INT), ("number", .INT), ("целое", .INT),
   ("smallint", .SMALLINT), ("малое", .SMALLINT), ("малое целое", .SMALLINT),
   ("jsonb", .JSONB), ("json", .JSONB),
   ("boolean", .BOOLEAN), ("булево", .BOOLEAN),
   ("timestamp", .TIMESTAMP), ("date", .TIMESTAMP), ("time", .TIMESTAMP),
   ("datetime", .TIMESTAMP), ("дата", .TIMESTAMP), ("время", .TIMESTAMP)]

/-- Source: `SQLType.sql_name` (insert_services.py lines 53-63). -/
def SQLType.sqlName : SQLType → String
  | .INT => "integer"
  | .VARCHAR => "character varying"
  | .DOUBLE => "double precision"
  | .BOOLEAN => "boolean"
  | .SMALLINT => "smallint"
  | .JSONB => "jsonb"
  | .TIMESTAMP => "timestamp with time zone"

/-- Source: `SQLType.from_name` (insert_services.py lines 45-51): look the lowercased
name up in the synonym table, fall back to `VARCHAR` for names starting with
"character varying", otherwise raise `ValueError` (embedded as `.error`). -/
def SQLType.fromName (name : String) : Except String SQLType :=
  match (sqltypeMapping.find? (fun p => p.1 = pyLower name)).map Prod.snd with
  | some t => .ok t
  | Option.none =>
    if strStartsWith name "character varying" then .ok .VARCHAR
    else .error ("Type " ++ name ++ " cannot be mapped to SQLType")

/-- The falsy tokens of the boolean cast (insert_services.py line 79). -/
def falsyTokens : List String := ["-", "0", "false", "no", "off", "нет", "ложь"]

/-- Source: `SQLType.cast` specialized at `self = BOOLEAN` (insert_services.py
lines 65-91).  After the nullish precheck, a string returns `False` when its
lowercasing is a falsy token and `bool(value)` otherwise; every non-string
value falls through every `if` to `raise NotImplementedError`, which — being a
subclass of `RuntimeError` — is caught by the `except RuntimeError` handler,
so the call returns `None`. -/
def castBoolean (v : PyValue) : Option PyValue :=
  if isNullish v then Option.none
  else
    match v with
    | .str s =>
        some (.bool (if (falsyTokens.contains (pyLower s)) then false else s ≠ ""))
    | _ => Option.none

/-- The Python exception classes that the embedded code can raise.  Only
`runtimeError` is a `RuntimeError`; the `except RuntimeError` handlers of the
source (lines 428, 440, 786) catch nothing else. -/
inductive PyExc where
  | typeError (msg : String)
  | valueError (msg : String)
  | keyError (key : String)
  | attributeError (msg : String)
  | dbError (msg : String)
  | runtimeError (msg : String)
deriving DecidableEq, Repr

/-- Is the exception an instance of `RuntimeError`?  (`NotImplementedError`
would also be one, but none is raised inside `add_objects`.) -/
def PyExc.isRuntimeError : PyExc → Bool
  | .runtimeError _ => true
  | _ => false

/-- One input row: a `pd.Series`, i.e. an association of column names to
values (missing columns are simply absent keys). -/
def Row := List (String × PyValue)

/-- Membership `col in row` for an optional column name (an unset mapping slot, i.e.
`None`, is never `in` a Series index). -/
def rowHas (row : Row) (c : Option String) : Bool :=
  match c with
  | some s => row.any (fun p => p.1 = s)
  | Option.none => false

/-- Access `row.get(col)` — the value, or Python `None` when the column is absent or
the slot is unset. -/
def rowGet (row : Row) (c : Option String) : PyValue :=
  match c with
  | some s =>
    match row.find? (fun p => p.1 = s) with
    | some p => p.2
    | Option.none => .none
  | Option.none => .none

/-- Access `row.get(col, default)` — the stored value when the column is present
(even if that value is `None`), the default otherwise. -/
def rowGetD (row : Row) (c : Option String) (d : PyValue) : PyValue :=
  if rowHas row c then rowGet row c else d

/-- Item access `row[col]` — raises `KeyError` when the column is absent (including the
case of an unset mapping slot, `row[None]`). -/
def rowItem (row : Row) (c : Option String) : Except PyExc PyValue :=
  match c with
  | some s =>
    match row.find? (fun p => p.1 = s) with
    | some p => .ok p.2
    | Option.none => .error (.keyError s)
  | Option.none => .error (.keyError "None")

/-- Source: `InsertionMapping` (insert_services.py lines 109-123): the ten optional
column-name slots. -/
structure InsertionMapping where
  name : Option String
  opening_hours : Option String
  website : Option String
  phone : Option String
  address : Option String
  capacity : Option String
  osm_id : Option String
  latitude : Option String
  longitude : Option String
  geometry : Option String
deriving DecidableEq, Repr

/-- Contiguous decimal digits to a natural number. -/
def natOfDigits (cs : List Char) : Nat :=
  cs.foldl (fun acc c => 10 * acc + (c.toNat - 48)) 0

/-- Is the character an ASCII digit? -/
def isDigit (c : Char) : Bool := '0' ≤ c && c ≤ '9'

/-- Parse an unsigned decimal literal `digits[.digits]` as a rational.
Exponents and the special literals (`inf`, `nan`) accepted by Python's
`float` are outside the modelled fragment. -/
def parseUnsignedDec (cs : List Char) : Option ℚ :=
  let intPart := cs.takeWhile isDigit
  let rest := cs.dropWhile isDigit
  match rest with
  | [] => if intPart.isEmpty then Option.none else some ((natOfDigits intPart : ℚ))
  | '.' :: frac =>
    if (!frac.all isDigit) || (intPart.isEmpty && frac.isEmpty) then Option.none
    else some ((natOfDigits intPart : ℚ) + (natOfDigits frac : ℚ) / (10 : ℚ) ^ frac.length)
  | _ => Option.none

/-- Parse a signed decimal literal, allowing surrounding whitespace. -/
def parseDec (s : String) : Option ℚ :=
  match (pyStrip s).data with
  | '-' :: cs => (parseUnsignedDec cs).map (fun q => -q)
  | '+' :: cs => parseUnsignedDec cs
  | cs => parseUnsignedDec cs

/-- Python `float(value)`: floats and ints pass through, `bool` maps to 1/0,
strings are parsed (raising `ValueError` on failure), `None` raises
`TypeError`.  A float NaN cell is not modelled here: the repository's loaders
replace NaN with `None` before `add_objects` runs. -/
def pyFloat : PyValue → Except PyExc ℚ
  | .num q => .ok q
  | .int n => .ok (n : ℚ)
  | .bool b => .ok (if b then 1 else 0)
  | .str s =>
    match parseDec s with
    | some q => .ok q
    | Option.none => .error (.valueError ("could not convert string to float: " ++ s))
  | .none => .error (.typeError "float() argument must be a string or a real number, not NoneType")
  | .nan => .error (.valueError "NaN input is outside the modelled fragment")

/-- Python `round(x, 6)` on the parsed coordinate (rounding to the nearest
multiple of 10⁻⁶; the tie-breaking of binary floats is not observable in any
claim). -/
def round6 (q : ℚ) : ℚ := ((round (q * 1000000) : ℤ) : ℚ) / 1000000

/-- A geometry value stored in a `physical_objects` row.  `ST_GeometryType`
returns `"ST_Point"` for points and an `"ST_"`-prefixed tag otherwise. -/
inductive StoredGeom where
  | point (x y : ℚ)
  | nonpoint (kind : String) (blob : String)
deriving DecidableEq, Repr

/-- Result of `ST_GeometryType` on a stored geometry. -/
def geomTypeOf : StoredGeom → String
  | .point _ _ => "ST_Point"
  | .nonpoint k _ => "ST_" ++ k

/-- A `city_service_types` row joined (as `insert_object`'s query does) with
its city function and infrastructure type. -/
structure ServiceType where
  id : Nat
  name : String
  code : String
  is_building : Bool
  capacity_min : Int
  capacity_max : Int
  city_function_id : Nat
  city_infrastructure_type_id : Nat
deriving DecidableEq, Repr

/-- A `physical_objects` row (`center` is `(x = longitude, y = latitude)`). -/
structure PhysicalObject where
  id : Nat
  city_id : Nat
  municipality_id : Option Nat
  administrative_unit_id : Option Nat
  center : ℚ × ℚ
  geometry : StoredGeom
  osm_id : PyValue
deriving DecidableEq, Repr

/-- A `buildings` row. -/
structure Building where
  id : Nat
  physical_object_id : Nat
  address : Option String
deriving DecidableEq, Repr

/-- A `functional_objects` row.  Text-like fields keep the Python value that
was written to them. -/
structure FunctionalObject where
  id : Nat
  physical_object_id : Nat
  city_service_type_id : Nat
  name : PyValue
  opening_hours : PyValue
  website : PyValue
  phone : PyValue
  capacity : Int
  is_capacity_real : Bool
  properties : List (String × PyValue)
deriving DecidableEq, Repr

/-- The database state visible to the pipeline, plus fresh-id counters for
the `RETURNING id` clauses. -/
structure DB where
  cities : List (Nat × String)
  city_service_types : List ServiceType
  physical_objects : List PhysicalObject
  buildings : List Building
  functional_objects : List FunctionalObject
  nextPhysId : Nat
  nextBuildId : Nat
  nextFuncId : Nat
deriving DecidableEq, Repr

/-- The PostGIS primitives used by the queries, abstracted as an oracle:
geodesic distance in meters, centroid/type of a GeoJSON blob (`none` models a
parse failure, which surfaces as a database error), the spatial predicates,
the stored form of an inserted GeoJSON blob, and point-in-polygon resolution
of municipalities and administrative units. -/
structure GeoOracle where
  geoDistance : ℚ × ℚ → ℚ × ℚ → ℚ
  centroidOf : String → Option (String × ℚ × ℚ)
  blobIntersects : String → StoredGeom → Bool
  blobCoveredBy : String → StoredGeom → Bool
  pointIntersects : ℚ × ℚ → StoredGeom → Bool
  storedOfBlob : String → StoredGeom
  municipalityAt : ℚ × ℚ → Option Nat
  adminUnitAt : ℚ × ℚ → Option Nat

/-- Query `SELECT id FROM cities WHERE name = %s` (line 374), first row. -/
def cityLookup (db : DB) (cityName : String) : Option Nat :=
  (db.cities.find? (fun c => c.2 = cityName)).map (fun c => c.1)

/-- Query `SELECT id, is_building FROM city_service_types WHERE name = %(service)s
or code = %(service)s` (lines 385-388), first row. -/
def serviceTypeLookup (db : DB) (s : String) : Option ServiceType :=
  db.city_service_types.find? (fun st => st.name = s || st.code = s)

/-- The `physical_objects JOIN buildings` relation, in building-scan order. -/
def joinedBuildings (db : DB) : List (PhysicalObject × Building) :=
  db.buildings.filterMap (fun b =>
    (db.physical_objects.find? (fun p => p.id = b.physical_object_id)).map
      (fun p => (p, b)))

/-- The address-match query (lines 491-499): a building of the city whose
address `LIKE '%<addr>'` (ends-with) and whose physical object's center lies
within 100 m geodesic of the row's point; `LIMIT 1`.  Returns
`(phys.id, build.id)`. -/
def findBuildingByAddress (db : DB) (g : GeoOracle) (cityId : Nat) (addr : String)
    (lon lat : ℚ) : Option (Nat × Nat) :=
  ((joinedBuildings db).find? (fun pb =>
    pb.1.city_id = cityId &&
    (match pb.2.address with
     | some s => strEndsWith s addr
     | Option.none => false) &&
    decide (g.geoDistance pb.1.center (lon, lat) < 100))).map
    (fun pb => (pb.1.id, pb.2.id))

/-- The municipality / administrative-unit narrowing of the geometry queries:
`AND municipality_id = %s` is added only when the row's point resolved to a
municipality, likewise for the administrative unit (lines 536-537 etc.). -/
def unitFilter (field : Option Nat) (resolved : Option Nat) : Bool :=
  match resolved with
  | some m => field = some m
  | Option.none => true

/-- The point-proximity disjunct of the coordinate-based geometry queries
(lines 563-566): a stored point within 0.0001° on both axes, or a geometry
spatially intersecting the row's point. -/
def pointGeomCond (g : GeoOracle) (lon lat : ℚ) (stored : StoredGeom) : Bool :=
  (match stored with
   | .point x y => decide (|x - lon| < 1/10000) && decide (|y - lat| < 1/10000)
   | .nonpoint _ _ => false) ||
  g.pointIntersects (lon, lat) stored

/-- The building-path geometry query for rows carrying a geometry blob
(lines 530-546): a building-owning physical object of the city (narrowed by
municipality / administrative unit) whose geometry intersects the blob.
Returns `(ST_GeometryType, phys.id, build.id, build.address)`. -/
def findBuildingByBlob (db : DB) (g : GeoOracle) (cityId : Nat)
    (muni admin : Option Nat) (blob : String) :
    Option (String × Nat × Nat × Option String) :=
  ((joinedBuildings db).find? (fun pb =>
    pb.1.city_id = cityId &&
    unitFilter pb.1.municipality_id muni &&
    unitFilter pb.1.administrative_unit_id admin &&
    g.blobIntersects blob pb.1.geometry)).map
    (fun pb => (geomTypeOf pb.1.geometry, pb.1.id, pb.2.id, pb.2.address))

/-- The building-path geometry query for coordinate-only rows (lines
548-575) selects the misspelled column `build.addres`; executing it raises a
database error (`UndefinedColumn`), which is not a `RuntimeError`. -/
def findBuildingByPoint (_db : DB) (_g : GeoOracle) (_cityId : Nat)
    (_muni _admin : Option Nat) (_lon _lat : ℚ) :
    Except PyExc (Option (String × Nat × Nat × Option String)) :=
  .error (.dbError "column build.addres does not exist")

/-- Does the physical object own a building? (the `SELECT EXISTS` subquery of
lines 633-634). -/
def ownsBuilding (db : DB) (physId : Nat) : Bool :=
  db.buildings.any (fun b => b.physical_object_id = physId)

/-- The non-building geometry query for rows carrying a blob (lines 629-645):
a building-free physical object of the city (narrowed by municipality /
administrative unit) whose geometry covers the blob.  Returns
`(ST_GeometryType, id)`. -/
def findNonBuildingByBlob (db : DB) (g : GeoOracle) (cityId : Nat)
    (muni admin : Option Nat) (blob : String) : Option (String × Nat) :=
  (db.physical_objects.find? (fun p =>
    p.city_id = cityId &&
    !ownsBuilding db p.id &&
    unitFilter p.municipality_id muni &&
    unitFilter p.administrative_unit_id admin &&
    g.blobCoveredBy blob p.geometry)).map
    (fun p => (geomTypeOf p.geometry, p.id))

/-- The non-building geometry query for coordinate-only rows (lines 646-670):
a building-free physical object of the city (narrowed) that is a stored point
within 0.0001° of the row's point or intersects it.  Returns
`(ST_GeometryType, id)`. -/
def findNonBuildingByPoint (db : DB) (g : GeoOracle) (cityId : Nat)
    (muni admin : Option Nat) (lon lat : ℚ) : Option (String × Nat) :=
  (db.physical_objects.find? (fun p =>
    p.city_id = cityId &&
    !ownsBuilding db p.id &&
    unitFilter p.municipality_id muni &&
    unitFilter p.administrative_unit_id admin &&
    pointGeomCond g lon lat p.geometry)).map
    (fun p => (geomTypeOf p.geometry, p.id))

/-- The de-duplication query (lines 507-511 and twins): the first functional
object on the physical object with the same service type and name. -/
def findFunctionalObject (db : DB) (physId stypeId : Nat) (name : PyValue) :
    Option Nat :=
  (db.functional_objects.find? (fun f =>
    f.physical_object_id = physId &&
    f.city_service_type_id = stypeId &&
    pyEq f.name name)).map (fun f => f.id)

/-- Result of the address-extraction step (lines 444-460): either an
(optional) extracted address, or a per-row skip with its reported reason. -/
inductive AddressStep where
  | ok (address : Option String)
  | skip (reason : String)
deriving DecidableEq, Repr

/-- Skip message of lines 452-458, depending on how many prefixes are
configured. -/
def prefixMismatchMsg (ps : List String) : String :=
  if ps.length = 1 then
    "Пропущен (Адрес не начинается с \"" ++ (ps.headD "") ++ "\")"
  else
    "Пропущен (Адрес не начинается ни с одного из " ++ toString ps.length ++ " префиксов)"

/-- Embedding of the address extraction as written (lines 444-460).  The test
on line 448 is `row.get(mapping.address, "").startswith(address_prefixes)`:
it passes the whole prefix *list* to `startswith`, so on the first loop
iteration CPython raises `TypeError` ("startswith first arg must be str or a
tuple of str, not list") for a string cell, or `AttributeError` for a
non-string cell; with an empty prefix list the loop body never runs and the
`for`-`else` records the mismatch skip.  None of those exceptions is a
`RuntimeError`, so they escape the per-row handler. -/
def extractAddressCode (isBuilding : Bool) (mapping : InsertionMapping)
    (addressPrefixes : List String) (row : Row) : Except PyExc AddressStep :=
  if isBuilding && rowHas row mapping.address then
    match addressPrefixes with
    | [] => .ok (.skip (prefixMismatchMsg addressPrefixes))
    | _ :: _ =>
      match rowGet row mapping.address with
      | .str _ =>
        .error (.typeError "startswith first arg must be str or a tuple of str, not list")
      | _ =>
        .error (.attributeError "object has no attribute startswith")
  else
    .ok (.ok Option.none)

/-- Python slicing `s[n:]` by characters. -/
def strDropChars (s : String) (n : Nat) : String := String.mk (s.data.drop n)

/-- Modelled from the spec: the intended address extraction of §4.3 step 2
(and of the source's own docstring step 1), which the spec's design note
declares authoritative over the literal line 448 — compare the address cell
against each configured prefix (already sorted by descending length), strip
the first matching prefix and trim leading/trailing commas and spaces, and
skip the row when no prefix matches.  It is the one-token repair of
`extractAddressCode` (`startswith(address_prefix)` for
`startswith(address_prefixes)`). -/
def extractAddressIntended (isBuilding : Bool) (mapping : InsertionMapping)
    (addressPrefixes : List String) (row : Row) : Except PyExc AddressStep :=
  if isBuilding && rowHas row mapping.address then
    match rowGet row mapping.address with
    | .str a =>
      match addressPrefixes.find? (fun p => strStartsWith a p) with
      | some p => .ok (.ok (some (pyStripChars [',', ' '] (strDropChars a p.data.length))))
      | Option.none => .ok (.skip (prefixMismatchMsg addressPrefixes))
    | _ => .error (.attributeError "object has no attribute startswith")
  else
    .ok (.ok Option.none)

/-- The properties document built by `insert_object` / `update_object`
(lines 193-197 and 268-272): one entry per properties-mapping pair whose
source column is present in the row with a non-`None`, non-empty value. -/
def buildProperties (row : Row) (pm : List (String × String)) :
    List (String × PyValue) :=
  pm.filterMap (fun dn_rn =>
    let v := rowGet row (some dn_rn.2)
    if rowHas row (some dn_rn.2) && v ≠ PyValue.none && !pyEq v (.str "") then
      some (dn_rn.1, v)
    else Option.none)

/-- Shallow-merge of a jsonb document (`properties || %s::jsonb`,
line 275): keys of the new document overwrite, others persist. -/
def mergeProps (old new : List (String × PyValue)) : List (String × PyValue) :=
  old.filter (fun p => !(new.any (fun q => q.1 = p.1))) ++ new

/-- Field names of the differential update, in the zip order of lines
242-258. -/
def updateFields : List String :=
  ["name", "opening_hours", "website", "phone", "capacity", "is_capacity_real"]

/-- Stored side of the differential-update zip: the `SELECT name,
opening_hours, website, phone, capacity, is_capacity_real` tuple (lines
235-241) as Python values. -/
def storedTuple (fo : FunctionalObject) : List PyValue :=
  [fo.name, fo.opening_hours, fo.website, fo.phone, .int fo.capacity,
   .bool fo.is_capacity_real]

/-- New side of the differential-update zip (lines 248-255): the resolved
name, the row's optional fields, the row's capacity cell, and
`mapping.capacity in row` for the flag. -/
def newTuple (row : Row) (name : PyValue) (mapping : InsertionMapping) :
    List PyValue :=
  [name, rowGet row mapping.opening_hours, rowGet row mapping.website,
   rowGet row mapping.phone, rowGet row mapping.capacity,
   .bool (rowHas row mapping.capacity)]

/-- The filtered change list of lines 242-258: keep the (field, stored, new)
triples whose new value differs (Python `!=`) from the stored one and is
neither `None` nor `""`. -/
def computeChange (fo : FunctionalObject) (row : Row) (name : PyValue)
    (mapping : InsertionMapping) : List (String × PyValue × PyValue) :=
  ((updateFields.zip ((storedTuple fo).zip (newTuple row name mapping))).filter
    (fun cvn => !pyEq cvn.2.1 cvn.2.2 && cvn.2.2 ≠ PyValue.none &&
      !pyEq cvn.2.2 (.str "")))

/-- The full change list sent to the `UPDATE` of lines 259-266: when the
stored capacity is real and the row has no capacity column, the source drops
the *last two entries of the filtered list* (`change = change[:-2]`), and
`updated_at = now` is always appended. -/
def fullChange (fo : FunctionalObject) (row : Row) (name : PyValue)
    (mapping : InsertionMapping) (now : String) :
    List (String × PyValue × PyValue) :=
  let change := computeChange fo row name mapping
  let change :=
    if fo.is_capacity_real && !rowHas row mapping.capacity then
      change.dropLast.dropLast
    else change
  change ++ [("updated_at", .str "", .str now)]

/-- Application of one `field=%s` assignment of the generated `UPDATE` to the
functional-object record.  The capacity column accepts the int-like values
the modelled rows carry (an ill-typed write would raise in SQL and is outside
the modelled fragment); `updated_at` is not part of the record. -/
def applyFieldUpdate (fo : FunctionalObject) (field : String) (v : PyValue) :
    FunctionalObject :=
  if field = "name" then { fo with name := v }
  else if field = "opening_hours" then { fo with opening_hours := v }
  else if field = "website" then { fo with website := v }
  else if field = "phone" then { fo with phone := v }
  else if field = "capacity" then
    { fo with capacity :=
        match v with
        | .int n => n
        | .bool b => if b then 1 else 0
        | _ => fo.capacity }
  else if field = "is_capacity_real" then
    { fo with is_capacity_real :=
        match v with
        | .bool b => b
        | _ => fo.is_capacity_real }
  else fo

/-- Source: `update_object` (insert_services.py lines 221-280).  Reads the
stored functional object, applies the differential `UPDATE` of `fullChange`,
and merges the properties document when it differs from the stored one (dict
equality is modelled on the derived association lists).  Unpacking a missing
id raises `TypeError` (line 241 would unpack `None`).  Returns the updated
id and the new database state. -/
def update_object (db : DB) (row : Row) (functionalObjectId : Nat)
    (name : PyValue) (mapping : InsertionMapping)
    (propertiesMapping : List (String × String)) (now : String) :
    Except PyExc (Nat × DB) :=
  match db.functional_objects.find? (fun f => f.id = functionalObjectId) with
  | Option.none => .error (.typeError "cannot unpack non-sequence NoneType")
  | some fo =>
    let change := fullChange fo row name mapping now
    let fo1 := change.foldl (fun acc cvn => applyFieldUpdate acc cvn.1 cvn.2.2) fo
    let props := buildProperties row propertiesMapping
    let fo2 :=
      if fo.properties ≠ props then
        { fo1 with properties := mergeProps fo1.properties props }
      else fo1
    let fos := db.functional_objects.map
      (fun f => if f.id = functionalObjectId then fo2 else f)
    .ok (functionalObjectId, { db with functional_objects := fos })

/-- Python `isinstance(v, int)` (`bool` is a subclass of `int`). -/
def pyIsInstInt : PyValue → Bool
  | .int _ => true
  | .bool _ => true
  | _ => false

/-- The integer a Python int-like value denotes. -/
def pyIntVal : PyValue → Int
  | .int n => n
  | .bool b => if b then 1 else 0
  | _ => 0

/-- Source: `insert_object` (insert_services.py lines 158-218).  The
service-type record already carries the joined city-function and
infrastructure ids, so the join of lines 175-186 succeeds and its assert
passes.  The capacity is the row's cell when present and int-valued (then
`is_capacity_real = True`), otherwise the uniform random draw from the
service type's range, supplied here as the `randCap` argument.  Appends the
new functional object and returns its id. -/
def insert_object (db : DB) (row : Row) (physId : Nat) (name : PyValue)
    (st : ServiceType) (mapping : InsertionMapping)
    (propertiesMapping : List (String × String)) (randCap : Int) : Nat × DB :=
  let capReal : Int × Bool :=
    if rowHas row mapping.capacity && pyIsInstInt (rowGet row mapping.capacity)
    then (pyIntVal (rowGet row mapping.capacity), true)
    else (randCap, false)
  let fo : FunctionalObject :=
    { id := db.nextFuncId
      physical_object_id := physId
      city_service_type_id := st.id
      name := name
      opening_hours := rowGet row mapping.opening_hours
      website := rowGet row mapping.website
      phone := rowGet row mapping.phone
      capacity := capReal.1
      is_capacity_real := capReal.2
      properties := buildProperties row propertiesMapping }
  (db.nextFuncId,
    { db with functional_objects := db.functional_objects ++ [fo],
              nextFuncId := db.nextFuncId + 1 })

/-- Per-batch configuration shared by every row of one `add_objects` call:
the service-type argument string (used for default names), the field mapping,
the properties mapping, the prefix list already sorted by descending length
(line 372), the unified new-address prefix, the commit flag, and the wall
clock rendered for `updated_at`. -/
structure BatchConfig where
  serviceTypeArg : String
  mapping : InsertionMapping
  propertiesMapping : List (String × String)
  addressPrefixes : List String
  newPrefixVal : String
  commit : Bool
  now : String

/-- How a container was found, for the outcome tag. -/
inductive FoundHow where
  | byAddress | byGeom
deriving DecidableEq, Repr

/-- Result of the container lookup + de-duplication block (lines 486-705):
either an existing functional object was updated (row done), or a container
was found to insert into, or a new physical object must be inserted. -/
inductive ContainerStep where
  | updated (foId : Nat) (db : DB)
  | insertInto (physId : Nat) (buildId : Option Nat) (how : FoundHow)
  | insertNewPhys
deriving DecidableEq, Repr

/-- Per-row outcome, the information content of the `results[i]` strings plus
the `functional_ids[i]` entry. -/
inductive Outcome where
  | updatedExisting (foId : Nat)
  | insertedByAddress (foId physId buildId : Nat)
  | insertedByGeom (foId physId : Nat) (buildId : Option Nat)
  | insertedNew (foId physId : Nat) (buildId : Option Nat)
  | skipped (reason : String)
deriving DecidableEq, Repr

/-- Read the geometry blob cell as a string; any other value sent to
`ST_GeomFromGeoJSON` is modelled as a database error. -/
def blobString (row : Row) (mapping : InsertionMapping) : Except PyExc String :=
  match rowGet row mapping.geometry with
  | .str s => .ok s
  | _ => .error (.dbError "geometry cell is not a GeoJSON string")

/-- The geometry-lookup dispatch of the building path (lines 530-575): the
blob-intersection query when a geometry blob is mapped, otherwise the
coordinate query whose misspelled `build.addres` column raises. -/
def buildingGeomLookup (db : DB) (g : GeoOracle) (cityId : Nat)
    (cfg : BatchConfig) (row : Row) (muni admin : Option Nat) (lon lat : ℚ) :
    Except PyExc (Option (String × Nat × Nat × Option String)) :=
  if rowHas row cfg.mapping.geometry then
    match blobString row cfg.mapping with
    | .error e => .error e
    | .ok blob => .ok (findBuildingByBlob db g cityId muni admin blob)
  else
    findBuildingByPoint db g cityId muni admin lon lat

/-- Embedding of the building-path container block (lines 489-627).  The
address query runs first, only when an address was extracted and is
non-empty; a hit there short-circuits the geometry lookup.  On a geometry
hit without an existing service, the point-to-polygon upgrade branch (lines
616-624) executes a statement misspelling `FROM` as `FORM`, raising a
database (syntax) error. -/
def buildingContainerStep (db : DB) (g : GeoOracle) (cityId : Nat)
    (st : ServiceType) (cfg : BatchConfig) (row : Row) (address : Option String)
    (muni admin : Option Nat) (lon lat : ℚ) (geomType : String)
    (name : PyValue) : Except PyExc ContainerStep :=
  match (match address with
         | some a =>
           if a = "" then Option.none
           else findBuildingByAddress db g cityId a lon lat
         | Option.none => Option.none : Option (Nat × Nat)) with
  | some pb =>
    match findFunctionalObject db pb.1 st.id name with
    | some foId =>
      match update_object db row foId name cfg.mapping cfg.propertiesMapping cfg.now with
      | .error e => .error e
      | .ok u => .ok (.updated u.1 u.2)
    | Option.none => .ok (.insertInto pb.1 (some pb.2) .byAddress)
  | Option.none =>
    match buildingGeomLookup db g cityId cfg row muni admin lon lat with
    | .error e => .error e
    | .ok (some r) =>
      match findFunctionalObject db r.2.1 st.id name with
      | some foId =>
        match update_object db row foId name cfg.mapping cfg.propertiesMapping cfg.now with
        | .error e => .error e
        | .ok u => .ok (.updated u.1 u.2)
      | Option.none =>
        if r.1 = "ST_Point" && geomType ≠ "ST_Point" then
          .error (.dbError "syntax error at or near FORM")
        else
          .ok (.insertInto r.2.1 (some r.2.2.1) .byGeom)
    | .ok Option.none => .ok .insertNewPhys

/-- The geometry-lookup dispatch of the non-building path (lines 629-670). -/
def nonBuildingLookup (db : DB) (g : GeoOracle) (cityId : Nat)
    (cfg : BatchConfig) (row : Row) (muni admin : Option Nat) (lon lat : ℚ) :
    Except PyExc (Option (String × Nat)) :=
  if rowHas row cfg.mapping.geometry then
    match blobString row cfg.mapping with
    | .error e => .error e
    | .ok blob => .ok (findNonBuildingByBlob db g cityId muni admin blob)
  else
    .ok (findNonBuildingByPoint db g cityId muni admin lon lat)

/-- Embedding of the non-building container block (lines 629-705).  The
upgrade branch here compares `ST_GeometryType` output against the bare
string "Point" (line 695), which `ST_GeometryType` never returns, so it is
dead code; it is kept as written. -/
def nonBuildingContainerStep (db : DB) (g : GeoOracle) (cityId : Nat)
    (st : ServiceType) (cfg : BatchConfig) (row : Row)
    (muni admin : Option Nat) (lon lat : ℚ) (geomType : String)
    (name : PyValue) : Except PyExc ContainerStep :=
  match nonBuildingLookup db g cityId cfg row muni admin lon lat with
  | .error e => .error e
  | .ok (some r) =>
    match findFunctionalObject db r.2 st.id name with
    | some foId =>
      match update_object db row foId name cfg.mapping cfg.propertiesMapping cfg.now with
      | .error e => .error e
      | .ok u => .ok (.updated u.1 u.2)
    | Option.none =>
      if r.1 = "Point" && geomType ≠ "Point" then
        .error (.dbError "syntax error at or near FORM")
      else
        .ok (.insertInto r.2 Option.none .byGeom)
  | .ok Option.none => .ok .insertNewPhys

/-- Embedding of the new-container insertion (lines 706-763): insert a
physical object (stored geometry from the blob when one is mapped, else the
row's point; center always the row's point), and — for building-based
service types — a building whose address is `new_prefix + address` when an
address was extracted and `NULL` otherwise. -/
def insertPhysStep (db : DB) (g : GeoOracle) (cityId : Nat) (st : ServiceType)
    (cfg : BatchConfig) (row : Row) (address : Option String)
    (muni admin : Option Nat) (lon lat : ℚ) :
    Except PyExc (Nat × Option Nat × DB) :=
  match (if rowHas row cfg.mapping.geometry then
           match blobString row cfg.mapping with
           | .error e => .error e
           | .ok blob => .ok (g.storedOfBlob blob)
         else
           .ok (StoredGeom.point lon lat) : Except PyExc StoredGeom) with
  | .error e => .error e
  | .ok geom =>
  let p : PhysicalObject :=
    { id := db.nextPhysId, city_id := cityId, municipality_id := muni,
      administrative_unit_id := admin, center := (lon, lat), geometry := geom,
      osm_id := rowGet row cfg.mapping.osm_id }
  let db1 := { db with physical_objects := db.physical_objects ++ [p],
                       nextPhysId := db.nextPhysId + 1 }
  if st.is_building then
    let baddr : Option String :=
      match address with
      | some a => some (cfg.newPrefixVal ++ a)
      | Option.none => Option.none
    let b : Building :=
      { id := db1.nextBuildId, physical_object_id := p.id, address := baddr }
    .ok (p.id, some b.id,
      { db1 with buildings := db1.buildings ++ [b],
                 nextBuildId := db1.nextBuildId + 1 })
  else
    .ok (p.id, Option.none, db1)

/-- Render an optional column name the way an f-string renders the slot. -/
def optStr : Option String → String
  | some s => s
  | Option.none => "None"

/-- Skip message of lines 462-466. -/
def missingFieldsMsg (m : InsertionMapping) : String :=
  "Пропущен (отсутствует как минимум одно необходимое поле: (широта (" ++
  optStr m.latitude ++ ") + долгота (" ++ optStr m.longitude ++
  ") или геометрия(" ++ optStr m.geometry ++ "))"

/-- Skip message of line 429. -/
def geomInvalidMsg (m : InsertionMapping) : String :=
  "Геометрия в поле \"" ++ optStr m.geometry ++ "\" некорректна"

/-- Name resolution (lines 469-471): the mapped name cell unless it is
missing, `None` or empty, in which case `"(<service_type> без названия)"`. -/
def resolveName (row : Row) (cfg : BatchConfig) : PyValue :=
  let dflt : PyValue := .str ("(" ++ cfg.serviceTypeArg ++ " без названия)")
  let n := rowGetD row cfg.mapping.name dflt
  if n = PyValue.none || pyEq n (.str "") then dflt else n

/-- The message text an exception renders to in `f"...: {ex}"`. -/
def PyExc.text : PyExc → String
  | .typeError m => m
  | .valueError m => m
  | .keyError k => k
  | .attributeError m => m
  | .dbError m => m
  | .runtimeError m => m

/-- The geometry-resolution stage (lines 414-443), guarded by the two
`except RuntimeError` handlers (lines 428-434 and 440-443): either resolved
`(geometry type, latitude, longitude)` (`inl`), a recorded skip message
(`inr`), or an escaping exception.  It reads only the row, the mapping and
the oracle — never the database. -/
def geomStage (g : GeoOracle) (cfg : BatchConfig) (row : Row) :
    Except PyExc (Sum (String × ℚ × ℚ) String) :=
  if rowHas row cfg.mapping.geometry then
    match (match rowGet row cfg.mapping.geometry with
           | .str blob =>
             match g.centroidOf blob with
             | some gyx => .ok gyx
             | Option.none => .error (.dbError "invalid GeoJSON geometry")
           | _ => .error (.dbError "geometry cell is not a GeoJSON string") :
           Except PyExc (String × ℚ × ℚ)) with
    | .ok gyx => .ok (.inl gyx)
    | .error e =>
      if e.isRuntimeError then .ok (.inr (geomInvalidMsg cfg.mapping))
      else .error e
  else
    match (do
      let lv ← rowItem row cfg.mapping.latitude
      let la ← pyFloat lv
      let gv ← rowItem row cfg.mapping.longitude
      let lo ← pyFloat gv
      pure (round6 la, round6 lo) : Except PyExc (ℚ × ℚ)) with
    | .ok ll => .ok (.inl ("ST_Point", ll.1, ll.2))
    | .error e =>
      if e.isRuntimeError then .ok (.inr "Пропущен (широта или долгота некорректны)")
      else .error e

/-- Embedding of the per-row body of `add_objects` (lines 414-785): the
geometry-resolution stage, the literal address extraction, the
missing-fields check, name resolution, municipality / administrative-unit
containment, the container block, and the final `insert_object`.  Exceptions
that are not `RuntimeError` propagate out of the row. -/
def processRow (db : DB) (g : GeoOracle) (cityId : Nat) (st : ServiceType)
    (cfg : BatchConfig) (randCap : Int) (row : Row) :
    Except PyExc (Outcome × DB) :=
  match geomStage g cfg row with
  | .error e => .error e
  | .ok (.inr msg) => .ok (.skipped msg, db)
  | .ok (.inl gll) =>
    match extractAddressCode st.is_building cfg.mapping cfg.addressPrefixes row with
    | .error e => .error e
    | .ok (.skip msg) => .ok (.skipped msg, db)
    | .ok (.ok address) =>
      if !rowHas row cfg.mapping.geometry &&
         (!rowHas row cfg.mapping.latitude || !rowHas row cfg.mapping.longitude) then
        .ok (.skipped (missingFieldsMsg cfg.mapping), db)
      else
        match (if st.is_building then
                 buildingContainerStep db g cityId st cfg row address
                   (g.municipalityAt (gll.2.2, gll.2.1))
                   (g.adminUnitAt (gll.2.2, gll.2.1))
                   gll.2.2 gll.2.1 gll.1 (resolveName row cfg)
               else
                 nonBuildingContainerStep db g cityId st cfg row
                   (g.municipalityAt (gll.2.2, gll.2.1))
                   (g.adminUnitAt (gll.2.2, gll.2.1))
                   gll.2.2 gll.2.1 gll.1 (resolveName row cfg)) with
        | .error e => .error e
        | .ok (.updated foId db') => .ok (.updatedExisting foId, db')
        | .ok (.insertInto physId buildId how) =>
          (match how with
           | .byAddress => .ok (.insertedByAddress
               (insert_object db row physId (resolveName row cfg) st cfg.mapping
                 cfg.propertiesMapping randCap).1 physId (buildId.getD 0),
               (insert_object db row physId (resolveName row cfg) st cfg.mapping
                 cfg.propertiesMapping randCap).2)
           | .byGeom => .ok (.insertedByGeom
               (insert_object db row physId (resolveName row cfg) st cfg.mapping
                 cfg.propertiesMapping randCap).1 physId buildId,
               (insert_object db row physId (resolveName row cfg) st cfg.mapping
                 cfg.propertiesMapping randCap).2))
        | .ok .insertNewPhys =>
          match insertPhysStep db g cityId st cfg row address
              (g.municipalityAt (gll.2.2, gll.2.1))
              (g.adminUnitAt (gll.2.2, gll.2.1)) gll.2.2 gll.2.1 with
          | .error e => .error e
          | .ok t =>
            .ok (.insertedNew
              (insert_object t.2.2 row t.1 (resolveName row cfg) st cfg.mapping
                cfg.propertiesMapping randCap).1 t.1 t.2.1,
              (insert_object t.2.2 row t.1 (resolveName row cfg) st cfg.mapping
                cfg.propertiesMapping randCap).2)

/-- The address-column preprocessing of lines 364-367: strip question marks
and surrounding whitespace from string cells, replace non-string cells by
`None`. -/
def preprocessRow (mapping : InsertionMapping) (row : Row) : Row :=
  match mapping.address with
  | some c =>
    row.map (fun p =>
      if p.1 = c then
        (p.1, match p.2 with
              | .str s => .str (pyStrip (pyRemoveChar '?' s))
              | _ => PyValue.none)
      else p)
  | Option.none => row

/-- One step of a stable insertion sort by descending length: insert before
the first element that is not longer. -/
def insertDescByLen (x : String) : List String → List String
  | [] => [x]
  | y :: ys =>
    if y.data.length ≤ x.data.length then x :: y :: ys
    else y :: insertDescByLen x ys

/-- Sorting of the prefix list by descending length (line 372,
`sorted(address_prefixes, key=lambda s: -len(s))`; stable), as a structural
insertion sort so that concrete instances reduce in the kernel. -/
def sortDescByLen (ps : List String) : List String :=
  ps.foldr insertDescByLen []

/-- Result of a batch: either the short-circuit of an unresolvable city or
service type — every row gets the error message and a `-1` id, nothing is
processed — or the per-row outcomes and the final database state. -/
inductive BatchResult where
  | aborted (msg : String) (rowCount : Nat) (db : DB)
  | completed (outcomes : List Outcome) (db : DB)
deriving DecidableEq, Repr

/-- The per-row loop of lines 403-795: process rows in order; a
`RuntimeError` is caught (rollback to the last savepoint in commit mode — the
state after the previous successful row — or a full rollback to the batch
start otherwise) and recorded as a skip; any other exception escapes the
batch.  The periodic commit (lines 405-413) does not change the visible
state and is modelled by the savepoint machine below. -/
def addObjectsLoop (g : GeoOracle) (cityId : Nat) (st : ServiceType)
    (cfg : BatchConfig) (rand : Nat → Int) (db0 : DB) :
    List Row → Nat → DB → Except PyExc (List Outcome × DB)
  | [], _, db => .ok ([], db)
  | r :: rest, idx, db =>
    match processRow db g cityId st cfg (rand idx) r with
    | .ok od =>
      match addObjectsLoop g cityId st cfg rand db0 rest (idx + 1) od.2 with
      | .ok osdb => .ok (od.1 :: osdb.1, osdb.2)
      | .error e => .error e
    | .error e =>
      if e.isRuntimeError then
        match addObjectsLoop g cityId st cfg rand db0 rest (idx + 1)
            (if cfg.commit then db else db0) with
        | .ok osdb =>
          .ok (.skipped ("Пропущен, вызывает ошибку: " ++ e.text) :: osdb.1, osdb.2)
        | .error e2 => .error e2
      else .error e

/-- Source: `add_objects` (insert_services.py lines 298-850).  Preprocesses
the address column, sorts the prefixes by descending length, resolves the
city and the service type — short-circuiting with an `aborted` result naming
the failure when either lookup misses (lines 374-398, message texts as in
the source, including its own typo) — and then runs the per-row loop.
Randomized capacities are supplied by the `rand` stream, indexed by row
position. -/
def add_objects (db : DB) (g : GeoOracle) (objects : List Row)
    (city_name service_type : String) (mapping : InsertionMapping)
    (propertiesMapping : List (String × String))
    (addressPrefixesArg : List String) (newPrefixVal : String) (commit : Bool)
    (rand : Nat → Int) (now : String) : Except PyExc BatchResult :=
  let rows := objects.map (preprocessRow mapping)
  match cityLookup db city_name with
  | Option.none =>
    .ok (.aborted ("Город \"" ++ city_name ++ "\" отсутсвует в базе данных")
      objects.length db)
  | some cityId =>
    match serviceTypeLookup db service_type with
    | Option.none =>
      .ok (.aborted ("Тип сервиса \"" ++ service_type ++ "\" отсутствует в базе данных")
        objects.length db)
    | some st =>
      let cfg : BatchConfig :=
        { serviceTypeArg := service_type, mapping := mapping,
          propertiesMapping := propertiesMapping,
          addressPrefixes := sortDescByLen addressPrefixesArg,
          newPrefixVal := newPrefixVal, commit := commit, now := now }
      match addObjectsLoop g cityId st cfg rand db rows 0 db with
      | .ok osdb => .ok (.completed osdb.1 osdb.2)
      | .error e => .error e

/-- The `functional_obj_id` column entry of an outcome (−1 for skips). -/
def Outcome.funcId : Outcome → Int
  | .updatedExisting f => f
  | .insertedByAddress f _ _ => f
  | .insertedByGeom f _ _ => f
  | .insertedNew f _ _ => f
  | .skipped _ => -1

/-- The `functional_obj_id` column of a batch result (lines 381/397/817):
`-1` for every row of an aborted batch. -/
def funcIdColumn : BatchResult → List Int
  | .aborted _ n _ => List.replicate n (-1)
  | .completed os _ => os.map Outcome.funcId

/-- Was the row inserted (as opposed to updated or skipped)? -/
def Outcome.isInserted : Outcome → Bool
  | .insertedByAddress _ _ _ => true
  | .insertedByGeom _ _ _ => true
  | .insertedNew _ _ _ => true
  | _ => false

/-- A write against the open transaction, tagged with the index of the row
that issued it (the tag is bookkeeping of the model, not of the source). -/
structure TxWrite where
  rowIdx : Nat
  stmt : String
deriving DecidableEq, Repr

/-- State of the connection's transaction in commit mode: statements already
committed, statements inside the open transaction up to the last `SAVEPOINT
previous_object`, and statements issued after it. -/
structure TxState where
  committed : List TxWrite
  saved : List TxWrite
  pending : List TxWrite
deriving DecidableEq, Repr

/-- Issue one write: it lands after the savepoint. -/
def TxState.write (s : TxState) (w : TxWrite) : TxState :=
  { s with pending := s.pending ++ [w] }

/-- Statement `SAVEPOINT previous_object`: everything issued so far is now
protected from `ROLLBACK TO previous_object`. -/
def TxState.savepoint (s : TxState) : TxState :=
  { s with saved := s.saved ++ s.pending, pending := [] }

/-- Statement `ROLLBACK TO previous_object`: discard the writes issued after
the last savepoint, keep everything before it. -/
def TxState.rollbackToSave (s : TxState) : TxState :=
  { s with pending := [] }

/-- Statement `conn.commit()` followed by the re-established savepoint of
lines 411-413: the open transaction is made durable. -/
def TxState.commitTx (s : TxState) : TxState :=
  { committed := s.committed ++ s.saved ++ s.pending, saved := [], pending := [] }

/-- Transaction trace of a row that completes successfully in commit mode:
its writes, then the `SAVEPOINT previous_object` that `insert_object` /
`update_object` execute right after the functional-object write (lines
216-218 and 278-280). -/
def runRowSuccess (ws : List TxWrite) (s : TxState) : TxState :=
  TxState.savepoint (ws.foldl TxState.write s)

/-- Transaction trace of a row that fails mid-way in commit mode: the prefix
of writes it managed to issue, then the handler's `ROLLBACK TO
previous_object` (lines 790-791). -/
def runRowFailure (ws : List TxWrite) (s : TxState) : TxState :=
  TxState.rollbackToSave (ws.foldl TxState.write s)

end InsertServices

namespace InsertServices

/-! ## Shared concrete fixtures for witnesses and evaluations -/

/-- A field mapping used by the concrete evaluations: name, address and
coordinates mapped, everything else unset. -/
def demoMapping : InsertionMapping :=
  { name := some "name", opening_hours := Option.none, website := Option.none,
    phone := Option.none, address := some "addr", capacity := Option.none,
    osm_id := Option.none, latitude := some "lat", longitude := some "lon",
    geometry := Option.none }

/-- A non-building service type. -/
def stCafe : ServiceType :=
  { id := 10, name := "Кафе", code := "cafe", is_building := false,
    capacity_min := 1, capacity_max := 5, city_function_id := 2,
    city_infrastructure_type_id := 3 }

/-- A building-based service type. -/
def stSchool : ServiceType :=
  { id := 11, name := "Школа", code := "school", is_building := true,
    capacity_min := 100, capacity_max := 500, city_function_id := 2,
    city_infrastructure_type_id := 3 }

/-- An oracle for concrete runs: zero geodesic distances, no blob parses, no
spatial hits, no municipality or administrative-unit containment. -/
def demoOracle : GeoOracle :=
  { geoDistance := fun _ _ => 0, centroidOf := fun _ => Option.none,
    blobIntersects := fun _ _ => false, blobCoveredBy := fun _ _ => false,
    pointIntersects := fun _ _ => false,
    storedOfBlob := fun b => .nonpoint "Polygon" b,
    municipalityAt := fun _ => Option.none, adminUnitAt := fun _ => Option.none }

/-- A database holding the demo city and both demo service types and nothing
else. -/
def demoDB : DB :=
  { cities := [(1, "Тестоград")], city_service_types := [stCafe, stSchool],
    physical_objects := [], buildings := [], functional_objects := [],
    nextPhysId := 1, nextBuildId := 1, nextFuncId := 1 }

/-- The default prefix list of the source. -/
def spbPrefixes : List String := ["Россия, Санкт-Петербург"]

end InsertServices

namespace InsertServices

/-! ## C8 — round-trip of the type classification -/

/-- C8 counterexample: mapping `TIMESTAMP` to its SQL name
`"timestamp with time zone"` and classifying it back does not recover
`TIMESTAMP` — the synonym table has no such key and the name does not start
with "character varying", so `from_name` raises `ValueError`.  The claimed
round-trip fails on this seventh variant. -/
theorem C8_roundtrip_counterexample :
    SQLType.fromName (SQLType.sqlName SQLType.TIMESTAMP) =
      .error "Type timestamp with time zone cannot be mapped to SQLType" ∧
    SQLType.fromName (SQLType.sqlName SQLType.TIMESTAMP) ≠
      .ok SQLType.TIMESTAMP := by
  refine ⟨rfl, fun h => ?_⟩
  have h2 : (Except.error "Type timestamp with time zone cannot be mapped to SQLType" :
      Except String SQLType) = .ok SQLType.TIMESTAMP := by
    calc (Except.error "Type timestamp with time zone cannot be mapped to SQLType" :
        Except String SQLType)
        = SQLType.fromName (SQLType.sqlName SQLType.TIMESTAMP) := by rfl
      _ = .ok SQLType.TIMESTAMP := h
  exact Except.noConfusion h2

/-- C8 amended: the round-trip `from_name (sql_name t) = t` holds for the six
variants other than `TIMESTAMP`; for `TIMESTAMP` the classification raises an
unsupported-type `ValueError` because `"timestamp with time zone"` is not in
the synonym table. -/
theorem C8_roundtrip_amended (t : SQLType) (h : t ≠ SQLType.TIMESTAMP) :
    SQLType.fromName (SQLType.sqlName t) = .ok t := by
  cases t
  case TIMESTAMP => exact absurd rfl h
  all_goals rfl

/-- C8 witness: the amended round-trip at the concrete variant `INT`. -/
theorem C8_roundtrip_amended_witness :
    SQLType.fromName (SQLType.sqlName SQLType.INT) = .ok SQLType.INT :=
  C8_roundtrip_amended SQLType.INT (by decide)

/-! ## C9 — boolean coercion -/

/-- C9 counterexample: the non-null value `1` (a Python `int`, not `None`,
equal to itself and not the empty string) is claimed to coerce to `True`,
but the `BOOLEAN` branch of `cast` only returns inside `isinstance(value,
str)`; an `int` falls through to `raise NotImplementedError`, which the
`except RuntimeError` clause catches, so the cast returns `None`. -/
theorem C9_boolean_cast_counterexample :
    castBoolean (.int 1) = Option.none ∧
    castBoolean (.int 1) ≠ some (.bool true) := by
  exact ⟨rfl, by decide⟩

/-- C9 amended: for every non-null *string* value, the coercion returns
`False` exactly on the falsy tokens (case-insensitively) and `True`
otherwise; every non-null non-string value yields `None` (the branch falls
through to `NotImplementedError`, a `RuntimeError`, which the handler turns
into `None`). -/
theorem C9_boolean_cast_amended :
    (∀ s : String, s ≠ "" →
      castBoolean (.str s) = some (.bool (!falsyTokens.contains (pyLower s)))) ∧
    (∀ v : PyValue, (∀ s : String, v ≠ .str s) → castBoolean v = Option.none) := by
  constructor
  · intro s hs
    have hnull : isNullish (.str s) = false := by
      simp [isNullish, pyEq, hs]
    rw [castBoolean, hnull]
    simp only [Bool.false_eq_true, if_false]
    have hne : decide (s ≠ "") = true := by simpa using hs
    cases hc : falsyTokens.contains (pyLower s) <;> simp [hc, hs]
  · intro v hv
    cases v with
    | str s => exact absurd rfl (hv s)
    | none => rfl
    | nan => rfl
    | int n => simp [castBoolean]
    | num q => simp [castBoolean]
    | bool b => simp [castBoolean]

/-- C9 witness: the amended statement at the concrete inputs `"Нет"` (a
falsy token up to case) and the Python boolean `True` (a non-string, coerced
to `None`). -/
theorem C9_boolean_cast_amended_witness :
    castBoolean (.str "Нет") = some (.bool false) ∧
    castBoolean (.bool true) = Option.none := by
  constructor
  · have h := C9_boolean_cast_amended.1 "Нет" (by decide)
    rw [h]
    rfl
  · exact C9_boolean_cast_amended.2 (.bool true) (by intro s h; exact PyValue.noConfusion h)

/-! ## C2 — address-prefix matching -/

/-- The Scenario-D row: a Moscow address with only the St-Petersburg prefix
configured, plus valid coordinates. -/
def moscowRow : Row :=
  [("addr", .str "Москва, Тверская, 1"), ("lat", .str "59"), ("lon", .str "30")]

/-- C2 evaluation: on the Scenario-D row the extraction as written raises
`TypeError` — line 448 calls `startswith(address_prefixes)` with the whole
list — instead of producing the claimed skip; the intended extraction (the
one-token repair, declared authoritative by the spec) produces exactly the
skip naming the unmatched prefix, and on a matching address strips the
longest prefix and the separator. -/
theorem C2_prefix_matching_code_bug :
    extractAddressCode true demoMapping spbPrefixes moscowRow =
      .error (.typeError "startswith first arg must be str or a tuple of str, not list") ∧
    extractAddressIntended true demoMapping spbPrefixes moscowRow =
      .ok (.skip "Пропущен (Адрес не начинается с \"Россия, Санкт-Петербург\")") ∧
    extractAddressIntended true demoMapping spbPrefixes
      [("addr", .str "Россия, Санкт-Петербург, Невский пр-кт, 1")] =
      .ok (.ok (some "Невский пр-кт, 1")) := by
  refine ⟨rfl, rfl, rfl⟩

/-! ## C5 — the capacity guard of `update_object` -/

/-- Mapping for the C5 evaluation: only name and phone mapped; no capacity
column. -/
def c5Mapping : InsertionMapping :=
  { name := some "name", opening_hours := Option.none, website := Option.none,
    phone := some "phone", address := Option.none, capacity := Option.none,
    osm_id := Option.none, latitude := some "lat", longitude := some "lon",
    geometry := Option.none }

/-- Stored functional object for the C5 evaluation: a real capacity and a
stored phone number. -/
def c5Stored : FunctionalObject :=
  { id := 1, physical_object_id := 1, city_service_type_id := 10,
    name := .str "a", opening_hours := .none, website := .none,
    phone := .str "111", capacity := 5, is_capacity_real := true,
    properties := [] }

/-- The C5 row: same name, a changed phone number, no capacity. -/
def c5Row : Row := [("name", .str "a"), ("phone", .str "222")]

/-- Database holding only the C5 functional object. -/
def c5DB : DB :=
  { cities := [(1, "Тестоград")], city_service_types := [stCafe],
    physical_objects := [], buildings := [], functional_objects := [c5Stored],
    nextPhysId := 1, nextBuildId := 1, nextFuncId := 2 }

/-- C5 evaluation: with a real stored capacity and no capacity in the row,
the filtered change list contains the changed phone and the flag; the guard
`change = change[:-2]` then drops *both* — the flag (correct) and the phone
change (the claim says it must still be written) — leaving only
`updated_at`, so `update_object` returns the database unchanged: the phone
update is silently lost. -/
theorem C5_capacity_guard_code_bug (now : String) :
    computeChange c5Stored c5Row (.str "a") c5Mapping =
      [("phone", .str "111", .str "222"),
       ("is_capacity_real", .bool true, .bool false)] ∧
    fullChange c5Stored c5Row (.str "a") c5Mapping now =
      [("updated_at", .str "", .str now)] ∧
    update_object c5DB c5Row 1 (.str "a") c5Mapping [] now = .ok (1, c5DB) := by
  refine ⟨rfl, rfl, rfl⟩

/-- C5 witness: the evaluation at a concrete clock value. -/
theorem C5_capacity_guard_code_bug_witness :
    fullChange c5Stored c5Row (.str "a") c5Mapping "2026-10-12 00:00:00" =
      [("updated_at", .str "", .str "2026-10-12 00:00:00")] :=
  (C5_capacity_guard_code_bug "2026-10-12 00:00:00").2.1

/-! ## C7 — fatal lookup failures short-circuit the batch -/

/-- C7: when the city lookup misses, `add_objects` returns immediately with
every row's result set to the city error message (source line 379, its typo
included) and the database untouched; likewise for a service type found by
neither name nor code (line 395); and an aborted batch renders `-1` in the
`functional_obj_id` column for every row. -/
theorem C7_fatal_lookup_short_circuit :
    (∀ (db : DB) (g : GeoOracle) (objects : List Row) (city stype : String)
       (m : InsertionMapping) (pm : List (String × String)) (aps : List String)
       (np : String) (commit : Bool) (rand : Nat → Int) (now : String),
      cityLookup db city = Option.none →
      add_objects db g objects city stype m pm aps np commit rand now =
        .ok (.aborted ("Город \"" ++ city ++ "\" отсутсвует в базе данных")
          objects.length db)) ∧
    (∀ (db : DB) (g : GeoOracle) (objects : List Row) (city stype : String)
       (m : InsertionMapping) (pm : List (String × String)) (aps : List String)
       (np : String) (commit : Bool) (rand : Nat → Int) (now : String) (cid : Nat),
      cityLookup db city = some cid →
      serviceTypeLookup db stype = Option.none →
      add_objects db g objects city stype m pm aps np commit rand now =
        .ok (.aborted ("Тип сервиса \"" ++ stype ++ "\" отсутствует в базе данных")
          objects.length db)) ∧
    (∀ (msg : String) (n : Nat) (db : DB),
      funcIdColumn (.aborted msg n db) = List.replicate n (-1)) := by
  refine ⟨?_, ?_, ?_⟩
  · intro db g objects city stype m pm aps np commit rand now h
    unfold add_objects
    rw [h]
  · intro db g objects city stype m pm aps np commit rand now cid h1 h2
    unfold add_objects
    rw [h1, h2]
  · intro msg n db
    rfl

/-- C7 witness: both abort branches and the id column at concrete inputs.
The demo database has no city named "Неизвестск" and no service type named
or coded "Аптека". -/
theorem C7_fatal_lookup_short_circuit_witness :
    add_objects demoDB demoOracle [moscowRow] "Неизвестск" "Кафе" demoMapping []
      spbPrefixes "" true (fun _ => 3) "T" =
      .ok (.aborted "Город \"Неизвестск\" отсутсвует в базе данных" 1 demoDB) ∧
    add_objects demoDB demoOracle [moscowRow] "Тестоград" "Аптека" demoMapping []
      spbPrefixes "" true (fun _ => 3) "T" =
      .ok (.aborted "Тип сервиса \"Аптека\" отсутствует в базе данных" 1 demoDB) ∧
    funcIdColumn (.aborted "x" 2 demoDB) = List.replicate 2 (-1) := by
  refine ⟨?_, ?_, ?_⟩
  · exact C7_fatal_lookup_short_circuit.1 demoDB demoOracle [moscowRow]
      "Неизвестск" "Кафе" demoMapping [] spbPrefixes "" true (fun _ => 3) "T" rfl
  · exact C7_fatal_lookup_short_circuit.2.1 demoDB demoOracle [moscowRow]
      "Тестоград" "Аптека" demoMapping [] spbPrefixes "" true (fun _ => 3) "T" 1 rfl rfl
  · exact C7_fatal_lookup_short_circuit.2.2 "x" 2 demoDB

/-! ## C10 — the savepoint window bounds the rollback -/

/-- Issuing a list of writes appends them after the savepoint. -/
theorem txWrite_foldl (ws : List TxWrite) (s : TxState) :
    ws.foldl TxState.write s = { s with pending := s.pending ++ ws } := by
  induction ws generalizing s with
  | nil => simp
  | cons w tl ih => simp [TxState.write, ih]

/-- C10: because `insert_object` / `update_object` re-establish `SAVEPOINT
previous_object` right after a successful functional-object write, the
failure handler's `ROLLBACK TO previous_object` discards exactly the failing
row's writes: the transaction state it leaves is the state after the
previous successful row, that row's writes (and everything older in the
checkpoint window) are still recorded, and committed work is untouched. -/
theorem C10_savepoint_rollback_window (s : TxState) (ws1 ws2 : List TxWrite) :
    runRowFailure ws2 (runRowSuccess ws1 s) = runRowSuccess ws1 s ∧
    (runRowSuccess ws1 s).saved = s.saved ++ s.pending ++ ws1 ∧
    (runRowFailure ws2 (runRowSuccess ws1 s)).committed = s.committed := by
  refine ⟨?_, ?_, ?_⟩ <;>
    simp [runRowFailure, runRowSuccess, txWrite_foldl, TxState.savepoint,
      TxState.rollbackToSave, List.append_assoc]

/-! ## C4 — the per-row exception handler -/

/-- A row whose latitude cell cannot parse as a float. -/
def badLatRow : Row := [("lat", .str "abc"), ("lon", .str "30")]

/-- C4 evaluation: the `ValueError` raised while parsing the latitude of a
row is *not* caught by the per-row `except RuntimeError` handler (line 786),
so it aborts the whole batch instead of being recorded as that row's skip —
contradicting the claimed row-granular isolation. -/
theorem C4_row_isolation_code_bug :
    add_objects demoDB demoOracle [badLatRow] "Тестоград" "Кафе" demoMapping []
      spbPrefixes "" true (fun _ => 3) "T" =
      .error (.valueError "could not convert string to float: abc") ∧
    (PyExc.valueError "could not convert string to float: abc").isRuntimeError
      = false := by
  exact ⟨rfl, rfl⟩

/-! ## C6 — coordinate validation skips -/

/-- The per-batch configuration of the demo runs. -/
def demoCfg : BatchConfig :=
  { serviceTypeArg := "Кафе", mapping := demoMapping, propertiesMapping := [],
    addressPrefixes := spbPrefixes, newPrefixVal := "", commit := true,
    now := "T" }

/-- A row missing the latitude column entirely. -/
def noLatRow : Row := [("lon", .str "30")]

/-- C6 evaluation: a latitude that fails to parse raises `ValueError`, which
the `except RuntimeError` guard of lines 440-443 does not catch, so the row
escapes with an exception instead of the claimed `invalid lat/lon` skip; and
a missing coordinate column raises `KeyError` at `row[mapping.latitude]`
(line 438) before the missing-required-fields check of line 461 can run, so
the claimed `missing required fields` skip is never produced either. -/
theorem C6_coordinate_validation_code_bug :
    processRow demoDB demoOracle 1 stCafe demoCfg 3 badLatRow =
      .error (.valueError "could not convert string to float: abc") ∧
    processRow demoDB demoOracle 1 stCafe demoCfg 3 noLatRow =
      .error (.keyError "lat") := by
  exact ⟨rfl, rfl⟩

/-! ## C1 — address-match precedence in the building container lookup -/

/-- C1: whenever an extracted non-empty address is available and the
address-match query (same city, stored address ends-matching, physical
object's center within 100 m geodesic) returns a building, the container
block resolves to exactly that building: it either updates the existing
functional object on it or inserts into it tagged `byAddress`.  The result
is a function of the address query alone — the geometry queries are never
consulted, so the resolution is the same however many geometry-match
candidates the database also holds. -/
theorem C1_address_precedence
    (db : DB) (g : GeoOracle) (cityId : Nat) (st : ServiceType)
    (cfg : BatchConfig) (row : Row) (muni admin : Option Nat) (lon lat : ℚ)
    (geomType : String) (name : PyValue) (a : String) (physId buildId : Nat)
    (hne : a ≠ "")
    (hfind : findBuildingByAddress db g cityId a lon lat = some (physId, buildId)) :
    buildingContainerStep db g cityId st cfg row (some a) muni admin lon lat
      geomType name =
      (match findFunctionalObject db physId st.id name with
       | some foId =>
         (update_object db row foId name cfg.mapping cfg.propertiesMapping
           cfg.now).map (fun u => ContainerStep.updated u.1 u.2)
       | Option.none =>
         .ok (.insertInto physId (some buildId) .byAddress)) := by
  unfold buildingContainerStep
  simp only [hne, ite_false, if_false, hfind]
  cases hfo : findFunctionalObject db physId st.id name with
  | none => simp [hfo]
  | some foId =>
    simp only [hfo]
    cases hu : update_object db row foId name cfg.mapping cfg.propertiesMapping
        cfg.now with
    | ok u => simp [hu, Except.map]
    | error e => simp [hu, Except.map]

/-- Physical object 1 of the C1 scene: the address-matched building's
container. -/
def c1Phys : PhysicalObject :=
  { id := 1, city_id := 1, municipality_id := Option.none,
    administrative_unit_id := Option.none, center := (30, 59),
    geometry := .nonpoint "Polygon" "poly1", osm_id := .none }

/-- Physical object 2 of the C1 scene: a would-be geometry-match candidate
(the oracle reports every spatial predicate true). -/
def c1Phys2 : PhysicalObject :=
  { id := 2, city_id := 1, municipality_id := Option.none,
    administrative_unit_id := Option.none, center := (30, 59),
    geometry := .nonpoint "Polygon" "poly2", osm_id := .none }

/-- The address-matched building, on physical object 1. -/
def c1Build : Building :=
  { id := 1, physical_object_id := 1,
    address := some "г. Санкт-Петербург, Невский пр-кт, 1" }

/-- A second building with an unrelated address, on physical object 2. -/
def c1Build2 : Building :=
  { id := 2, physical_object_id := 2, address := some "другой адрес" }

/-- The C1 scene: both buildings present; building 2 scans first, so only
the address filter selects building 1. -/
def c1DB : DB :=
  { cities := [(1, "Тестоград")], city_service_types := [stSchool],
    physical_objects := [c1Phys2, c1Phys], buildings := [c1Build2, c1Build],
    functional_objects := [], nextPhysId := 3, nextBuildId := 3,
    nextFuncId := 1 }

/-- An oracle whose every spatial predicate holds, so a geometry-match
candidate exists for any row — yet the address match must win. -/
def c1Oracle : GeoOracle :=
  { geoDistance := fun _ _ => 0, centroidOf := fun _ => Option.none,
    blobIntersects := fun _ _ => true, blobCoveredBy := fun _ _ => true,
    pointIntersects := fun _ _ => true,
    storedOfBlob := fun b => .nonpoint "Polygon" b,
    municipalityAt := fun _ => Option.none, adminUnitAt := fun _ => Option.none }

/-- C1 witness: in the concrete scene the extracted address selects building
1 (physical object 1) and the block resolves to an insert into it tagged
`byAddress`, although the oracle would also report geometry matches
(e.g. physical object 2) had the geometry query been consulted. -/
theorem C1_address_precedence_witness :
    buildingContainerStep c1DB c1Oracle 1 stSchool demoCfg []
      (some "Невский пр-кт, 1") Option.none Option.none 30 59 "ST_Point"
      (.str "школа №1") =
      .ok (.insertInto 1 (some 1) .byAddress) := by
  have hfind : findBuildingByAddress c1DB c1Oracle 1 "Невский пр-кт, 1" 30 59 =
      some (1, 1) := by
    norm_num [findBuildingByAddress, joinedBuildings, c1DB, c1Oracle, c1Build,
      c1Build2, c1Phys, c1Phys2, strEndsWith, charsLeadWith, List.find?]
  have h := C1_address_precedence c1DB c1Oracle 1 stSchool demoCfg []
    Option.none Option.none 30 59 "ST_Point" (.str "школа №1")
    "Невский пр-кт, 1" 1 1 (by decide) hfind
  rw [h]
  rfl

/-! ## C3 — de-duplication and idempotence: helper lemmas -/

/-- Inversion of the literal address extraction: when it returns an extracted
address (rather than a skip or an exception), that address is `None` — the
only non-raising, non-skipping path is the one where no address cell takes
part. -/
theorem extractAddressCode_ok_eq_none (ib : Bool) (m : InsertionMapping)
    (aps : List String) (row : Row) (a : Option String)
    (h : extractAddressCode ib m aps row = .ok (.ok a)) : a = Option.none := by
  unfold extractAddressCode at h
  split at h
  · cases aps with
    | nil => simp [prefixMismatchMsg] at h
    | cons p ps =>
      cases hv : rowGet row m.address <;> rw [hv] at h <;> simp at h
  · simp at h
    exact h.symm

/-- Appending a matching functional object to a table on which the
de-duplication query missed makes the query return exactly that object. -/
theorem findFO_append (l : List FunctionalObject) (fo : FunctionalObject)
    (physId stId : Nat) (name : PyValue)
    (hmiss : l.find? (fun f => f.physical_object_id = physId &&
      f.city_service_type_id = stId && pyEq f.name name) = Option.none)
    (hp : fo.physical_object_id = physId) (hs : fo.city_service_type_id = stId)
    (hn : pyEq fo.name name = true) :
    (l ++ [fo]).find? (fun f => f.physical_object_id = physId &&
      f.city_service_type_id = stId && pyEq f.name name) = some fo := by
  rw [List.find?_append, hmiss]
  simp [List.find?, hp, hs, hn]

/-- A find by id misses every row whose id is smaller. -/
theorem find?_id_miss (l : List FunctionalObject) (n : Nat)
    (h : ∀ f ∈ l, f.id < n) :
    l.find? (fun f => f.id = n) = Option.none := by
  rw [List.find?_eq_none]
  intro f hf
  simp only [decide_eq_true_eq]
  exact Nat.ne_of_lt (h f hf)

/-- When the stored functional object is found, `update_object` succeeds,
returns the same id, and neither the physical objects, nor the buildings,
nor the *number* of functional objects change — an update is never a second
insert. -/
theorem update_object_found (db : DB) (row : Row) (fid : Nat) (name : PyValue)
    (m : InsertionMapping) (pm : List (String × String)) (now : String)
    (fo : FunctionalObject)
    (h : db.functional_objects.find? (fun f => f.id = fid) = some fo) :
    ∃ db', update_object db row fid name m pm now = .ok (fid, db') ∧
      db'.physical_objects = db.physical_objects ∧
      db'.buildings = db.buildings ∧
      db'.functional_objects.length = db.functional_objects.length ∧
      db'.nextFuncId = db.nextFuncId ∧ db'.nextPhysId = db.nextPhysId := by
  unfold update_object
  rw [h]
  exact ⟨_, rfl, rfl, rfl, by simp, rfl, rfl⟩

/-- The stored point inserted at the row's own coordinates satisfies the
point-proximity condition of the coordinate queries. -/
theorem pointGeomCond_self (g : GeoOracle) (lon lat : ℚ) :
    pointGeomCond g lon lat (.point lon lat) = true := by
  simp only [pointGeomCond, Bool.or_eq_true, Bool.and_eq_true, decide_eq_true_eq]
  left
  constructor <;> · rw [sub_self, abs_zero]; norm_num

/-- The municipality/administrative-unit narrowing accepts a row whose field
was set from the same resolution. -/
theorem unitFilter_refl (x : Option Nat) : unitFilter x x = true := by
  cases x <;> simp [unitFilter]

/-- De-duplication on the non-building path: if the geometry lookup found a
physical object that already carries a functional object with the same
service type and name, the container block is exactly the update of that
object. -/
theorem nbStep_dedup (db : DB) (g : GeoOracle) (cityId : Nat)
    (st : ServiceType) (cfg : BatchConfig) (row : Row) (muni admin : Option Nat)
    (lon lat : ℚ) (geomType : String) (name : PyValue) (t : String)
    (physId foId : Nat)
    (hlk : nonBuildingLookup db g cityId cfg row muni admin lon lat =
      .ok (some (t, physId)))
    (hfo : findFunctionalObject db physId st.id name = some foId) :
    nonBuildingContainerStep db g cityId st cfg row muni admin lon lat
      geomType name =
      (update_object db row foId name cfg.mapping cfg.propertiesMapping
        cfg.now).map (fun u => ContainerStep.updated u.1 u.2) := by
  unfold nonBuildingContainerStep
  rw [hlk]
  cases hu : update_object db row foId name cfg.mapping cfg.propertiesMapping
      cfg.now with
  | error e => simp [hfo, hu, Except.map]
  | ok u => simp [hfo, hu, Except.map]

/-- De-duplication on the building path, address variant: an address-matched
building that already carries a functional object with the same service type
and name leads to exactly the update of that object. -/
theorem bStep_dedup_addr (db : DB) (g : GeoOracle) (cityId : Nat)
    (st : ServiceType) (cfg : BatchConfig) (row : Row) (muni admin : Option Nat)
    (lon lat : ℚ) (geomType : String) (name : PyValue) (a : String)
    (physId buildId foId : Nat)
    (hne : a ≠ "")
    (hfind : findBuildingByAddress db g cityId a lon lat = some (physId, buildId))
    (hfo : findFunctionalObject db physId st.id name = some foId) :
    buildingContainerStep db g cityId st cfg row (some a) muni admin lon lat
      geomType name =
      (update_object db row foId name cfg.mapping cfg.propertiesMapping
        cfg.now).map (fun u => ContainerStep.updated u.1 u.2) := by
  unfold buildingContainerStep
  simp only [hne, ite_false, if_false, hfind]
  cases hu : update_object db row foId name cfg.mapping cfg.propertiesMapping
      cfg.now with
  | error e => simp [hfo, hu, Except.map]
  | ok u => simp [hfo, hu, Except.map]

/-- De-duplication on the building path, geometry variant (no extracted
address): a geometry-matched building that already carries a functional
object with the same service type and name leads to exactly the update of
that object. -/
theorem bStep_dedup_geom (db : DB) (g : GeoOracle) (cityId : Nat)
    (st : ServiceType) (cfg : BatchConfig) (row : Row) (muni admin : Option Nat)
    (lon lat : ℚ) (geomType : String) (name : PyValue) (t : String)
    (physId buildId : Nat) (ad2 : Option String) (foId : Nat)
    (hlk : buildingGeomLookup db g cityId cfg row muni admin lon lat =
      .ok (some (t, physId, buildId, ad2)))
    (hfo : findFunctionalObject db physId st.id name = some foId) :
    buildingContainerStep db g cityId st cfg row Option.none muni admin lon lat
      geomType name =
      (update_object db row foId name cfg.mapping cfg.propertiesMapping
        cfg.now).map (fun u => ContainerStep.updated u.1 u.2) := by
  unfold buildingContainerStep
  rw [hlk]
  cases hu : update_object db row foId name cfg.mapping cfg.propertiesMapping
      cfg.now with
  | error e => simp [hfo, hu, Except.map]
  | ok u => simp [hfo, hu, Except.map]

/-- Shape of `insert_object`: it returns the pre-insert `nextFuncId` and
appends one functional object carrying exactly the targeted physical object,
service type and name. -/
theorem insert_object_spec (db : DB) (row : Row) (physId : Nat)
    (name : PyValue) (st : ServiceType) (m : InsertionMapping)
    (pm : List (String × String)) (rc : Int) :
    ∃ fo : FunctionalObject,
      insert_object db row physId name st m pm rc =
        (db.nextFuncId,
         { db with functional_objects := db.functional_objects ++ [fo],
                   nextFuncId := db.nextFuncId + 1 }) ∧
      fo.id = db.nextFuncId ∧ fo.physical_object_id = physId ∧
      fo.city_service_type_id = st.id ∧ fo.name = name := by
  unfold insert_object
  exact ⟨_, rfl, rfl, rfl, rfl, rfl⟩

/-- Idempotence, non-building path, found-container case: after inserting a
functional object into a found non-building container, re-running the
container block on the same row finds that very object and updates it. -/
theorem nb_found_idem (db : DB) (g : GeoOracle) (cityId : Nat)
    (st : ServiceType) (cfg : BatchConfig) (row : Row) (muni admin : Option Nat)
    (lon lat : ℚ) (geomType2 : String) (name : PyValue) (rc : Int)
    (t : String) (physId : Nat)
    (hfoid : ∀ f ∈ db.functional_objects, f.id < db.nextFuncId)
    (hname : pyEq name name = true)
    (hlk : nonBuildingLookup db g cityId cfg row muni admin lon lat =
      .ok (some (t, physId)))
    (hfo : findFunctionalObject db physId st.id name = Option.none) :
    ∃ db2, nonBuildingContainerStep
        (insert_object db row physId name st cfg.mapping cfg.propertiesMapping rc).2
        g cityId st cfg row muni admin lon lat geomType2 name =
      .ok (.updated db.nextFuncId db2) := by
  obtain ⟨fo, hio, hid, hp, hs, hn⟩ :=
    insert_object_spec db row physId name st cfg.mapping cfg.propertiesMapping rc
  have h2 : (insert_object db row physId name st cfg.mapping
      cfg.propertiesMapping rc).2 =
      { db with functional_objects := db.functional_objects ++ [fo],
                nextFuncId := db.nextFuncId + 1 } := by rw [hio]
  rw [h2]
  set dbI : DB := { db with functional_objects := db.functional_objects ++ [fo],
                            nextFuncId := db.nextFuncId + 1 } with hdbI
  have hlk' : nonBuildingLookup dbI g cityId cfg row muni admin lon lat =
      nonBuildingLookup db g cityId cfg row muni admin lon lat := rfl
  have hmiss : db.functional_objects.find? (fun f =>
      f.physical_object_id = physId && f.city_service_type_id = st.id &&
      pyEq f.name name) = Option.none := by
    unfold findFunctionalObject at hfo
    exact Option.map_eq_none'.mp hfo
  have hfo' : findFunctionalObject dbI physId st.id name = some fo.id := by
    unfold findFunctionalObject
    have he : dbI.functional_objects = db.functional_objects ++ [fo] := rfl
    rw [he, findFO_append db.functional_objects fo physId st.id name hmiss hp hs
      (by rw [hn]; exact hname)]
    rfl
  have hidf : dbI.functional_objects.find? (fun f => f.id = fo.id) = some fo := by
    have he : dbI.functional_objects = db.functional_objects ++ [fo] := rfl
    rw [he, hid, List.find?_append,
      find?_id_miss db.functional_objects db.nextFuncId hfoid]
    simp [List.find?, hid]
  obtain ⟨db2, hupd, -, -, -, -, -⟩ := update_object_found dbI row fo.id name
    cfg.mapping cfg.propertiesMapping cfg.now fo hidf
  refine ⟨db2, ?_⟩
  have hstep := nbStep_dedup dbI g cityId st cfg row muni admin lon lat
    geomType2 name t physId fo.id (hlk'.trans hlk) hfo'
  rw [hstep, hupd]
  simp [Except.map, hid]

/-- A search that missed on a list hits an appended element satisfying the
predicate. -/
theorem find?_append_hit {α} (l : List α) (x : α) (p : α → Bool)
    (hold : l.find? p = Option.none) (hx : p x = true) :
    (l ++ [x]).find? p = some x := by
  rw [List.find?_append, hold]
  simp [List.find?, hx]

/-- No stored functional object points at a physical object with a
fresh id. -/
theorem findFO_fresh_miss (l : List FunctionalObject) (physId stId : Nat)
    (name : PyValue) (h : ∀ f ∈ l, f.physical_object_id ≠ physId) :
    l.find? (fun f => f.physical_object_id = physId &&
      f.city_service_type_id = stId && pyEq f.name name) = Option.none := by
  rw [List.find?_eq_none]
  intro f hf hcontra
  obtain ⟨⟨h1, -⟩, -⟩ := by simpa using hcontra
  exact h f hf h1

/-- Idempotence, non-building path, new-container case: after inserting a
new physical object at the row's point together with its functional object,
re-running the container block on the same row finds the new container and
updates the inserted functional object. -/
theorem nb_new_idem (db : DB) (g : GeoOracle) (cityId : Nat)
    (st : ServiceType) (cfg : BatchConfig) (row : Row) (muni admin : Option Nat)
    (lon lat : ℚ) (geomType2 : String) (name : PyValue) (rc : Int)
    (address : Option String) (tp : Nat × Option Nat × DB)
    (hib : st.is_building = false)
    (hfoid : ∀ f ∈ db.functional_objects, f.id < db.nextFuncId)
    (hfop : ∀ f ∈ db.functional_objects, f.physical_object_id < db.nextPhysId)
    (hbp : ∀ b ∈ db.buildings, b.physical_object_id < db.nextPhysId)
    (hname : pyEq name name = true)
    (hcov : ∀ blob, g.blobCoveredBy blob (g.storedOfBlob blob) = true)
    (hlk : nonBuildingLookup db g cityId cfg row muni admin lon lat =
      .ok Option.none)
    (hphys : insertPhysStep db g cityId st cfg row address muni admin lon lat =
      .ok tp) :
    ∃ db2, nonBuildingContainerStep
        (insert_object tp.2.2 row tp.1 name st cfg.mapping cfg.propertiesMapping rc).2
        g cityId st cfg row muni admin lon lat geomType2 name =
      .ok (.updated db.nextFuncId db2) := by
  unfold insertPhysStep at hphys
  rw [hib] at hphys
  simp only [Bool.false_eq_true, if_false] at hphys
  -- the inserted physical object, by geometry source
  by_cases hrg : rowHas row cfg.mapping.geometry = true
  case pos =>
    rw [if_pos hrg] at hphys
    cases hblob : blobString row cfg.mapping with
    | error e => rw [hblob] at hphys; exact absurd hphys (by simp)
    | ok blob =>
      rw [hblob] at hphys
      set p : PhysicalObject :=
        { id := db.nextPhysId, city_id := cityId, municipality_id := muni,
          administrative_unit_id := admin, center := (lon, lat),
          geometry := g.storedOfBlob blob,
          osm_id := rowGet row cfg.mapping.osm_id } with hpdef
      have h3 : (Except.ok (db.nextPhysId, Option.none,
          { db with physical_objects := db.physical_objects ++ [p],
                    nextPhysId := db.nextPhysId + 1 }) :
          Except PyExc (Nat × Option Nat × DB)) = .ok tp := hphys
      have htp : tp = (db.nextPhysId, Option.none,
          { db with physical_objects := db.physical_objects ++ [p],
                    nextPhysId := db.nextPhysId + 1 }) := by
        injection h3 with h4
        exact h4.symm
      subst htp
      obtain ⟨fo, hio, hid, hpo, hs, hn⟩ := insert_object_spec
        { db with physical_objects := db.physical_objects ++ [p],
                  nextPhysId := db.nextPhysId + 1 } row db.nextPhysId name st
        cfg.mapping cfg.propertiesMapping rc
      have h2 : (insert_object
          { db with physical_objects := db.physical_objects ++ [p],
                    nextPhysId := db.nextPhysId + 1 } row db.nextPhysId name st
          cfg.mapping cfg.propertiesMapping rc).2 =
          { db with physical_objects := db.physical_objects ++ [p],
                    functional_objects := db.functional_objects ++ [fo],
                    nextPhysId := db.nextPhysId + 1,
                    nextFuncId := db.nextFuncId + 1 } := by rw [hio]
      rw [h2]
      set dbI : DB :=
        { db with physical_objects := db.physical_objects ++ [p],
                  functional_objects := db.functional_objects ++ [fo],
                  nextPhysId := db.nextPhysId + 1,
                  nextFuncId := db.nextFuncId + 1 } with hdbI
      -- the re-run geometry lookup hits the inserted physical object
      have hown : ownsBuilding dbI db.nextPhysId = false := by
        unfold ownsBuilding
        have he : dbI.buildings = db.buildings := rfl
        rw [he, List.any_eq_false]
        intro b hb
        simpa using Nat.ne_of_lt (hbp b hb)
      have hrun1 : findNonBuildingByBlob db g cityId muni admin blob =
          Option.none := by
        unfold nonBuildingLookup at hlk
        rw [if_pos hrg, hblob] at hlk
        simpa using hlk
      have hold : db.physical_objects.find? (fun q => q.city_id = cityId &&
          !ownsBuilding dbI q.id && unitFilter q.municipality_id muni &&
          unitFilter q.administrative_unit_id admin &&
          g.blobCoveredBy blob q.geometry) = Option.none := by
        unfold findNonBuildingByBlob at hrun1
        exact Option.map_eq_none'.mp hrun1
      have hfind : findNonBuildingByBlob dbI g cityId muni admin blob =
          some (geomTypeOf p.geometry, p.id) := by
        unfold findNonBuildingByBlob
        have he : dbI.physical_objects = db.physical_objects ++ [p] := rfl
        rw [he, find?_append_hit _ _ _ hold
          (by simp [hown, unitFilter_refl, hcov])]
        rfl
      have hlk2 : nonBuildingLookup dbI g cityId cfg row muni admin lon lat =
          .ok (some (geomTypeOf p.geometry, p.id)) := by
        unfold nonBuildingLookup
        rw [if_pos hrg, hblob]
        show Except.ok (findNonBuildingByBlob dbI g cityId muni admin blob) = _
        rw [hfind]
      -- the de-duplication query hits the inserted functional object
      have hmiss : db.functional_objects.find? (fun f =>
          f.physical_object_id = p.id && f.city_service_type_id = st.id &&
          pyEq f.name name) = Option.none :=
        findFO_fresh_miss db.functional_objects p.id st.id name
          (fun f hf => Nat.ne_of_lt (hfop f hf))
      have hfo2 : findFunctionalObject dbI p.id st.id name = some fo.id := by
        unfold findFunctionalObject
        have he : dbI.functional_objects = db.functional_objects ++ [fo] := rfl
        rw [he, findFO_append db.functional_objects fo p.id st.id name hmiss hpo
          hs (by rw [hn]; exact hname)]
        rfl
      have hidf : dbI.functional_objects.find? (fun f => f.id = fo.id) =
          some fo := by
        have he : dbI.functional_objects = db.functional_objects ++ [fo] := rfl
        rw [he, hid, List.find?_append,
          find?_id_miss db.functional_objects db.nextFuncId hfoid]
        simp [List.find?, hid]
      obtain ⟨db2, hupd, -, -, -, -, -⟩ := update_object_found dbI row fo.id name
        cfg.mapping cfg.propertiesMapping cfg.now fo hidf
      refine ⟨db2, ?_⟩
      have hstep := nbStep_dedup dbI g cityId st cfg row muni admin lon lat
        geomType2 name (geomTypeOf p.geometry) p.id fo.id hlk2 hfo2
      rw [hstep, hupd]
      simp [Except.map, hid]
  case neg =>
    rw [if_neg hrg] at hphys
    set p : PhysicalObject :=
      { id := db.nextPhysId, city_id := cityId, municipality_id := muni,
        administrative_unit_id := admin, center := (lon, lat),
        geometry := .point lon lat,
        osm_id := rowGet row cfg.mapping.osm_id } with hpdef
    have h3 : (Except.ok (db.nextPhysId, Option.none,
        { db with physical_objects := db.physical_objects ++ [p],
                  nextPhysId := db.nextPhysId + 1 }) :
        Except PyExc (Nat × Option Nat × DB)) = .ok tp := hphys
    have htp : tp = (db.nextPhysId, Option.none,
        { db with physical_objects := db.physical_objects ++ [p],
                  nextPhysId := db.nextPhysId + 1 }) := by
      injection h3 with h4
      exact h4.symm
    subst htp
    obtain ⟨fo, hio, hid, hpo, hs, hn⟩ := insert_object_spec
      { db with physical_objects := db.physical_objects ++ [p],
                nextPhysId := db.nextPhysId + 1 } row db.nextPhysId name st
      cfg.mapping cfg.propertiesMapping rc
    have h2 : (insert_object
        { db with physical_objects := db.physical_objects ++ [p],
                  nextPhysId := db.nextPhysId + 1 } row db.nextPhysId name st
        cfg.mapping cfg.propertiesMapping rc).2 =
        { db with physical_objects := db.physical_objects ++ [p],
                  functional_objects := db.functional_objects ++ [fo],
                  nextPhysId := db.nextPhysId + 1,
                  nextFuncId := db.nextFuncId + 1 } := by rw [hio]
    rw [h2]
    set dbI : DB :=
      { db with physical_objects := db.physical_objects ++ [p],
                functional_objects := db.functional_objects ++ [fo],
                nextPhysId := db.nextPhysId + 1,
                nextFuncId := db.nextFuncId + 1 } with hdbI
    have hown : ownsBuilding dbI db.nextPhysId = false := by
      unfold ownsBuilding
      have he : dbI.buildings = db.buildings := rfl
      rw [he, List.any_eq_false]
      intro b hb
      simpa using Nat.ne_of_lt (hbp b hb)
    have hrun1 : findNonBuildingByPoint db g cityId muni admin lon lat =
        Option.none := by
      unfold nonBuildingLookup at hlk
      rw [if_neg hrg] at hlk
      simpa using hlk
    have hold : db.physical_objects.find? (fun q => q.city_id = cityId &&
        !ownsBuilding dbI q.id && unitFilter q.municipality_id muni &&
        unitFilter q.administrative_unit_id admin &&
        pointGeomCond g lon lat q.geometry) = Option.none := by
      unfold findNonBuildingByPoint at hrun1
      exact Option.map_eq_none'.mp hrun1
    have hfind : findNonBuildingByPoint dbI g cityId muni admin lon lat =
        some (geomTypeOf p.geometry, p.id) := by
      unfold findNonBuildingByPoint
      have he : dbI.physical_objects = db.physical_objects ++ [p] := rfl
      rw [he, find?_append_hit _ _ _ hold
        (by simp [hown, unitFilter_refl, pointGeomCond_self])]
      rfl
    have hlk2 : nonBuildingLookup dbI g cityId cfg row muni admin lon lat =
        .ok (some (geomTypeOf p.geometry, p.id)) := by
      unfold nonBuildingLookup
      rw [if_neg hrg, hfind]
    have hmiss : db.functional_objects.find? (fun f =>
        f.physical_object_id = p.id && f.city_service_type_id = st.id &&
        pyEq f.name name) = Option.none :=
      findFO_fresh_miss db.functional_objects p.id st.id name
        (fun f hf => Nat.ne_of_lt (hfop f hf))
    have hfo2 : findFunctionalObject dbI p.id st.id name = some fo.id := by
      unfold findFunctionalObject
      have he : dbI.functional_objects = db.functional_objects ++ [fo] := rfl
      rw [he, findFO_append db.functional_objects fo p.id st.id name hmiss hpo
        hs (by rw [hn]; exact hname)]
      rfl
    have hidf : dbI.functional_objects.find? (fun f => f.id = fo.id) =
        some fo := by
      have he : dbI.functional_objects = db.functional_objects ++ [fo] := rfl
      rw [he, hid, List.find?_append,
        find?_id_miss db.functional_objects db.nextFuncId hfoid]
      simp [List.find?, hid]
    obtain ⟨db2, hupd, -, -, -, -, -⟩ := update_object_found dbI row fo.id name
      cfg.mapping cfg.propertiesMapping cfg.now fo hidf
    refine ⟨db2, ?_⟩
    have hstep := nbStep_dedup dbI g cityId st cfg row muni admin lon lat
      geomType2 name (geomTypeOf p.geometry) p.id fo.id hlk2 hfo2
    rw [hstep, hupd]
    simp [Except.map, hid]

/-- Appending a physical object and its building (with fresh ids) extends
the `physical_objects JOIN buildings` relation by exactly that pair. -/
theorem joinedBuildings_append (db dbI : DB) (p : PhysicalObject) (b : Building)
    (hphys : dbI.physical_objects = db.physical_objects ++ [p])
    (hbuild : dbI.buildings = db.buildings ++ [b])
    (hb : b.physical_object_id = p.id)
    (hfreshb : ∀ b' ∈ db.buildings, b'.physical_object_id ≠ p.id)
    (hfreshp : ∀ p' ∈ db.physical_objects, p'.id ≠ p.id) :
    joinedBuildings dbI = joinedBuildings db ++ [(p, b)] := by
  unfold joinedBuildings
  rw [hphys, hbuild, List.filterMap_append]
  congr 1
  · apply List.filterMap_congr
    intro b' hb'
    rw [List.find?_append]
    have hsing : [p].find? (fun q => q.id = b'.physical_object_id) =
        Option.none := by
      rw [List.find?_eq_none]
      intro q hq
      simp only [List.mem_singleton] at hq
      subst hq
      simpa using fun hcontra => (hfreshb b' hb') hcontra.symm
    rw [hsing]
    cases db.physical_objects.find? (fun q => q.id = b'.physical_object_id) <;>
      rfl
  · have hnone : db.physical_objects.find?
        (fun q => q.id = b.physical_object_id) = Option.none := by
      rw [List.find?_eq_none]
      intro q hq
      simpa [hb] using hfreshp q hq
    have hhit : (db.physical_objects ++ [p]).find?
        (fun q => q.id = b.physical_object_id) = some p := by
      apply find?_append_hit _ _ _ hnone
      simp [hb]
    simp only [List.filterMap_cons, List.filterMap_nil, hhit]
    rfl

/-- Idempotence, building path, found-container case: after inserting a
functional object into a building found by geometry, re-running the
container block (with no extracted address, as the literal extraction always
yields) finds that object and updates it. -/
theorem b_found_idem (db : DB) (g : GeoOracle) (cityId : Nat)
    (st : ServiceType) (cfg : BatchConfig) (row : Row) (muni admin : Option Nat)
    (lon lat : ℚ) (geomType2 : String) (name : PyValue) (rc : Int)
    (t : String) (physId buildId : Nat) (ad2 : Option String)
    (hfoid : ∀ f ∈ db.functional_objects, f.id < db.nextFuncId)
    (hname : pyEq name name = true)
    (hlk : buildingGeomLookup db g cityId cfg row muni admin lon lat =
      .ok (some (t, physId, buildId, ad2)))
    (hfo : findFunctionalObject db physId st.id name = Option.none) :
    ∃ db2, buildingContainerStep
        (insert_object db row physId name st cfg.mapping cfg.propertiesMapping rc).2
        g cityId st cfg row Option.none muni admin lon lat geomType2 name =
      .ok (.updated db.nextFuncId db2) := by
  obtain ⟨fo, hio, hid, hp, hs, hn⟩ :=
    insert_object_spec db row physId name st cfg.mapping cfg.propertiesMapping rc
  have h2 : (insert_object db row physId name st cfg.mapping
      cfg.propertiesMapping rc).2 =
      { db with functional_objects := db.functional_objects ++ [fo],
                nextFuncId := db.nextFuncId + 1 } := by rw [hio]
  rw [h2]
  set dbI : DB := { db with functional_objects := db.functional_objects ++ [fo],
                            nextFuncId := db.nextFuncId + 1 } with hdbI
  have hlk' : buildingGeomLookup dbI g cityId cfg row muni admin lon lat =
      buildingGeomLookup db g cityId cfg row muni admin lon lat := rfl
  have hmiss : db.functional_objects.find? (fun f =>
      f.physical_object_id = physId && f.city_service_type_id = st.id &&
      pyEq f.name name) = Option.none := by
    unfold findFunctionalObject at hfo
    exact Option.map_eq_none'.mp hfo
  have hfo' : findFunctionalObject dbI physId st.id name = some fo.id := by
    unfold findFunctionalObject
    have he : dbI.functional_objects = db.functional_objects ++ [fo] := rfl
    rw [he, findFO_append db.functional_objects fo physId st.id name hmiss hp hs
      (by rw [hn]; exact hname)]
    rfl
  have hidf : dbI.functional_objects.find? (fun f => f.id = fo.id) = some fo := by
    have he : dbI.functional_objects = db.functional_objects ++ [fo] := rfl
    rw [he, hid, List.find?_append,
      find?_id_miss db.functional_objects db.nextFuncId hfoid]
    simp [List.find?, hid]
  obtain ⟨db2, hupd, -, -, -, -, -⟩ := update_object_found dbI row fo.id name
    cfg.mapping cfg.propertiesMapping cfg.now fo hidf
  refine ⟨db2, ?_⟩
  have hstep := bStep_dedup_geom dbI g cityId st cfg row muni admin lon lat
    geomType2 name t physId buildId ad2 fo.id (hlk'.trans hlk) hfo'
  rw [hstep, hupd]
  simp [Except.map, hid]

/-- Shape of `insertPhysStep` on the building path with a geometry blob: it
appends one physical object (stored geometry from the blob, center at the
row's point, the resolved municipality and administrative unit) and one
building referencing it, both with fresh ids. -/
theorem insertPhysStep_building_spec (db : DB) (g : GeoOracle) (cityId : Nat)
    (st : ServiceType) (cfg : BatchConfig) (row : Row)
    (address : Option String) (muni admin : Option Nat) (lon lat : ℚ)
    (blob : String)
    (hib : st.is_building = true)
    (hrg : rowHas row cfg.mapping.geometry = true)
    (hblob : blobString row cfg.mapping = .ok blob) :
    ∃ (p : PhysicalObject) (b : Building),
      insertPhysStep db g cityId st cfg row address muni admin lon lat =
        .ok (p.id, some b.id,
          { db with physical_objects := db.physical_objects ++ [p],
                    buildings := db.buildings ++ [b],
                    nextPhysId := db.nextPhysId + 1,
                    nextBuildId := db.nextBuildId + 1 }) ∧
      p.id = db.nextPhysId ∧ p.city_id = cityId ∧ p.municipality_id = muni ∧
      p.administrative_unit_id = admin ∧ p.geometry = g.storedOfBlob blob ∧
      b.physical_object_id = p.id ∧ b.id = db.nextBuildId := by
  unfold insertPhysStep
  rw [hib, if_pos hrg, hblob]
  exact ⟨_, _, rfl, rfl, rfl, rfl, rfl, rfl, rfl, rfl⟩

/-- Idempotence, building path, new-container case: after inserting a new
physical object with its building and functional object, re-running the
container block on the same row finds the new building by geometry and
updates the inserted functional object. -/
theorem b_new_idem (db : DB) (g : GeoOracle) (cityId : Nat)
    (st : ServiceType) (cfg : BatchConfig) (row : Row) (muni admin : Option Nat)
    (lon lat : ℚ) (geomType2 : String) (name : PyValue) (rc : Int)
    (address : Option String) (tp : Nat × Option Nat × DB)
    (hib : st.is_building = true)
    (hrg : rowHas row cfg.mapping.geometry = true)
    (hfoid : ∀ f ∈ db.functional_objects, f.id < db.nextFuncId)
    (hfop : ∀ f ∈ db.functional_objects, f.physical_object_id < db.nextPhysId)
    (hbp : ∀ b ∈ db.buildings, b.physical_object_id < db.nextPhysId)
    (hpp : ∀ p ∈ db.physical_objects, p.id < db.nextPhysId)
    (hname : pyEq name name = true)
    (hint : ∀ blob, g.blobIntersects blob (g.storedOfBlob blob) = true)
    (hlk : buildingGeomLookup db g cityId cfg row muni admin lon lat =
      .ok Option.none)
    (hphys : insertPhysStep db g cityId st cfg row address muni admin lon lat =
      .ok tp) :
    ∃ db2, buildingContainerStep
        (insert_object tp.2.2 row tp.1 name st cfg.mapping cfg.propertiesMapping rc).2
        g cityId st cfg row Option.none muni admin lon lat geomType2 name =
      .ok (.updated db.nextFuncId db2) := by
  cases hblob : blobString row cfg.mapping with
  | error e =>
    exfalso
    unfold insertPhysStep at hphys
    rw [hib, if_pos hrg, hblob] at hphys
    exact absurd hphys (by simp)
  | ok blob =>
    obtain ⟨p, b, heq, hpid, hpc, hpm, hpa, hpg, hbp2, hbid⟩ :=
      insertPhysStep_building_spec db g cityId st cfg row address muni admin
        lon lat blob hib hrg hblob
    rw [hphys] at heq
    have htp : tp = (p.id, some b.id,
        { db with physical_objects := db.physical_objects ++ [p],
                  buildings := db.buildings ++ [b],
                  nextPhysId := db.nextPhysId + 1,
                  nextBuildId := db.nextBuildId + 1 }) := by
      exact Except.ok.inj heq
    subst htp
    obtain ⟨fo, hio, hid, hpo, hs, hn⟩ := insert_object_spec
      { db with physical_objects := db.physical_objects ++ [p],
                buildings := db.buildings ++ [b],
                nextPhysId := db.nextPhysId + 1,
                nextBuildId := db.nextBuildId + 1 } row p.id name st
      cfg.mapping cfg.propertiesMapping rc
    have h2 : (insert_object
        { db with physical_objects := db.physical_objects ++ [p],
                  buildings := db.buildings ++ [b],
                  nextPhysId := db.nextPhysId + 1,
                  nextBuildId := db.nextBuildId + 1 } row p.id name st
        cfg.mapping cfg.propertiesMapping rc).2 =
        { db with physical_objects := db.physical_objects ++ [p],
                  buildings := db.buildings ++ [b],
                  functional_objects := db.functional_objects ++ [fo],
                  nextPhysId := db.nextPhysId + 1,
                  nextBuildId := db.nextBuildId + 1,
                  nextFuncId := db.nextFuncId + 1 } := by rw [hio]
    rw [h2]
    set dbI : DB :=
      { db with physical_objects := db.physical_objects ++ [p],
                buildings := db.buildings ++ [b],
                functional_objects := db.functional_objects ++ [fo],
                nextPhysId := db.nextPhysId + 1,
                nextBuildId := db.nextBuildId + 1,
                nextFuncId := db.nextFuncId + 1 } with hdbI
    have hjoin : joinedBuildings dbI = joinedBuildings db ++ [(p, b)] :=
      joinedBuildings_append db dbI p b rfl rfl hbp2
        (fun b' hb' => hpid ▸ Nat.ne_of_lt (hbp b' hb'))
        (fun p' hp' => hpid ▸ Nat.ne_of_lt (hpp p' hp'))
    have hrun1 : findBuildingByBlob db g cityId muni admin blob =
        Option.none := by
      unfold buildingGeomLookup at hlk
      rw [if_pos hrg, hblob] at hlk
      simpa using hlk
    have hold : (joinedBuildings db).find? (fun pb => pb.1.city_id = cityId &&
        unitFilter pb.1.municipality_id muni &&
        unitFilter pb.1.administrative_unit_id admin &&
        g.blobIntersects blob pb.1.geometry) = Option.none := by
      unfold findBuildingByBlob at hrun1
      exact Option.map_eq_none'.mp hrun1
    have hfind : findBuildingByBlob dbI g cityId muni admin blob =
        some (geomTypeOf p.geometry, p.id, b.id, b.address) := by
      unfold findBuildingByBlob
      rw [hjoin, find?_append_hit _ _ _ hold
        (by simp [hpc, hpm, hpa, hpg, unitFilter_refl, hint])]
      rfl
    have hlk2 : buildingGeomLookup dbI g cityId cfg row muni admin lon lat =
        .ok (some (geomTypeOf p.geometry, p.id, b.id, b.address)) := by
      unfold buildingGeomLookup
      rw [if_pos hrg, hblob]
      show Except.ok (findBuildingByBlob dbI g cityId muni admin blob) = _
      rw [hfind]
    have hmiss : db.functional_objects.find? (fun f =>
        f.physical_object_id = p.id && f.city_service_type_id = st.id &&
        pyEq f.name name) = Option.none :=
      findFO_fresh_miss db.functional_objects p.id st.id name
        (fun f hf => hpid ▸ Nat.ne_of_lt (hfop f hf))
    have hfo2 : findFunctionalObject dbI p.id st.id name = some fo.id := by
      unfold findFunctionalObject
      have he : dbI.functional_objects = db.functional_objects ++ [fo] := rfl
      rw [he, findFO_append db.functional_objects fo p.id st.id name hmiss hpo
        hs (by rw [hn]; exact hname)]
      rfl
    have hidf : dbI.functional_objects.find? (fun f => f.id = fo.id) =
        some fo := by
      have he : dbI.functional_objects = db.functional_objects ++ [fo] := rfl
      rw [he, hid, List.find?_append,
        find?_id_miss db.functional_objects db.nextFuncId hfoid]
      simp [List.find?, hid]
    obtain ⟨db2, hupd, -, -, -, -, -⟩ := update_object_found dbI row fo.id name
      cfg.mapping cfg.propertiesMapping cfg.now fo hidf
    refine ⟨db2, ?_⟩
    have hstep := bStep_dedup_geom dbI g cityId st cfg row muni admin lon lat
      geomType2 name (geomTypeOf p.geometry) p.id b.id b.address fo.id hlk2 hfo2
    rw [hstep, hupd]
    simp [Except.map, hid]

/-- Inversion of the non-building container block on an `insertInto` result:
the geometry lookup hit exactly that physical object and the de-duplication
query missed. -/
theorem nbStep_insert_inv (db : DB) (g : GeoOracle) (cityId : Nat)
    (st : ServiceType) (cfg : BatchConfig) (row : Row) (muni admin : Option Nat)
    (lon lat : ℚ) (geomType : String) (name : PyValue)
    (physId : Nat) (buildId : Option Nat) (how : FoundHow)
    (h : nonBuildingContainerStep db g cityId st cfg row muni admin lon lat
      geomType name = .ok (.insertInto physId buildId how)) :
    (∃ t, nonBuildingLookup db g cityId cfg row muni admin lon lat =
      .ok (some (t, physId))) ∧
    findFunctionalObject db physId st.id name = Option.none := by
  unfold nonBuildingContainerStep at h
  cases hlk : nonBuildingLookup db g cityId cfg row muni admin lon lat with
  | error e => rw [hlk] at h; simp at h
  | ok o =>
    cases o with
    | none => rw [hlk] at h; simp at h
    | some r =>
      simp only [hlk] at h
      cases hfo : findFunctionalObject db r.2 st.id name with
      | some foId =>
        simp only [hfo] at h
        cases hu : update_object db row foId name cfg.mapping
            cfg.propertiesMapping cfg.now with
        | error e => simp [hu] at h
        | ok u => simp [hu] at h
      | none =>
        simp only [hfo] at h
        split at h
        · simp at h
        · obtain ⟨h3, h4, h5⟩ := ContainerStep.insertInto.inj (Except.ok.inj h)
          refine ⟨⟨r.1, ?_⟩, ?_⟩
          · rw [← h3]
          · rw [← h3]; exact hfo

/-- Inversion of the non-building container block on an `insertNewPhys`
result: the geometry lookup came back empty. -/
theorem nbStep_new_inv (db : DB) (g : GeoOracle) (cityId : Nat)
    (st : ServiceType) (cfg : BatchConfig) (row : Row) (muni admin : Option Nat)
    (lon lat : ℚ) (geomType : String) (name : PyValue)
    (h : nonBuildingContainerStep db g cityId st cfg row muni admin lon lat
      geomType name = .ok .insertNewPhys) :
    nonBuildingLookup db g cityId cfg row muni admin lon lat =
      .ok Option.none := by
  unfold nonBuildingContainerStep at h
  cases hlk : nonBuildingLookup db g cityId cfg row muni admin lon lat with
  | error e => rw [hlk] at h; simp at h
  | ok o =>
    cases o with
    | none => rfl
    | some r =>
      exfalso
      simp only [hlk] at h
      cases hfo : findFunctionalObject db r.2 st.id name with
      | some foId =>
        simp only [hfo] at h
        cases hu : update_object db row foId name cfg.mapping
            cfg.propertiesMapping cfg.now with
        | error e => simp [hu] at h
        | ok u => simp [hu] at h
      | none =>
        simp only [hfo] at h
        split at h
        · simp at h
        · simp at h

/-- Inversion of the building container block (no extracted address) on an
`insertInto` result: the geometry lookup hit exactly that building and the
de-duplication query missed. -/
theorem bStep_insert_inv (db : DB) (g : GeoOracle) (cityId : Nat)
    (st : ServiceType) (cfg : BatchConfig) (row : Row) (muni admin : Option Nat)
    (lon lat : ℚ) (geomType : String) (name : PyValue)
    (physId : Nat) (buildId : Option Nat) (how : FoundHow)
    (h : buildingContainerStep db g cityId st cfg row Option.none muni admin
      lon lat geomType name = .ok (.insertInto physId buildId how)) :
    (∃ t bId ad2, buildingGeomLookup db g cityId cfg row muni admin lon lat =
      .ok (some (t, physId, bId, ad2))) ∧
    findFunctionalObject db physId st.id name = Option.none := by
  unfold buildingContainerStep at h
  simp only [] at h
  cases hlk : buildingGeomLookup db g cityId cfg row muni admin lon lat with
  | error e => rw [hlk] at h; simp at h
  | ok o =>
    cases o with
    | none => rw [hlk] at h; simp at h
    | some r =>
      simp only [hlk] at h
      cases hfo : findFunctionalObject db r.2.1 st.id name with
      | some foId =>
        simp only [hfo] at h
        cases hu : update_object db row foId name cfg.mapping
            cfg.propertiesMapping cfg.now with
        | error e => simp [hu] at h
        | ok u => simp [hu] at h
      | none =>
        simp only [hfo] at h
        split at h
        · simp at h
        · obtain ⟨h3, h4, h5⟩ := ContainerStep.insertInto.inj (Except.ok.inj h)
          refine ⟨⟨r.1, r.2.2.1, r.2.2.2, ?_⟩, ?_⟩
          · rw [← h3]
          · rw [← h3]; exact hfo

/-- Inversion of the building container block (no extracted address) on an
`insertNewPhys` result: the geometry lookup came back empty. -/
theorem bStep_new_inv (db : DB) (g : GeoOracle) (cityId : Nat)
    (st : ServiceType) (cfg : BatchConfig) (row : Row) (muni admin : Option Nat)
    (lon lat : ℚ) (geomType : String) (name : PyValue)
    (h : buildingContainerStep db g cityId st cfg row Option.none muni admin
      lon lat geomType name = .ok .insertNewPhys) :
    buildingGeomLookup db g cityId cfg row muni admin lon lat =
      .ok Option.none := by
  unfold buildingContainerStep at h
  simp only [] at h
  cases hlk : buildingGeomLookup db g cityId cfg row muni admin lon lat with
  | error e => rw [hlk] at h; simp at h
  | ok o =>
    cases o with
    | none => rfl
    | some r =>
      exfalso
      simp only [hlk] at h
      cases hfo : findFunctionalObject db r.2.1 st.id name with
      | some foId =>
        simp only [hfo] at h
        cases hu : update_object db row foId name cfg.mapping
            cfg.propertiesMapping cfg.now with
        | error e => simp [hu] at h
        | ok u => simp [hu] at h
      | none =>
        simp only [hfo] at h
        split at h
        · simp at h
        · simp at h

/-- Re-running a row that was inserted: the second run of the per-row body,
on the database the first run produced, resolves the container lookup to the
object the first run created, hits the de-duplication key
`(physical_object_id, city_service_type_id, name)` and updates the inserted
functional object instead of inserting again.  The freshness hypotheses say
the id counters dominate the stored tables; the two laws on the oracle say a
blob is covered by / intersects the geometry stored from that same blob. -/
theorem processRow_idem (db : DB) (g : GeoOracle) (cityId : Nat)
    (st : ServiceType) (cfg : BatchConfig) (rc rc2 : Int) (row : Row)
    (out : Outcome) (db1 : DB)
    (hfoid : ∀ f ∈ db.functional_objects, f.id < db.nextFuncId)
    (hfop : ∀ f ∈ db.functional_objects, f.physical_object_id < db.nextPhysId)
    (hbp : ∀ b ∈ db.buildings, b.physical_object_id < db.nextPhysId)
    (hpp : ∀ p ∈ db.physical_objects, p.id < db.nextPhysId)
    (hname : pyEq (resolveName row cfg) (resolveName row cfg) = true)
    (hcov : ∀ blob, g.blobCoveredBy blob (g.storedOfBlob blob) = true)
    (hint : ∀ blob, g.blobIntersects blob (g.storedOfBlob blob) = true)
    (hrun : processRow db g cityId st cfg rc row = .ok (out, db1))
    (hins : out.isInserted = true) :
    ∃ db2, processRow db1 g cityId st cfg rc2 row =
      .ok (.updatedExisting db.nextFuncId, db2) := by
  unfold processRow at hrun
  cases hgs : geomStage g cfg row with
  | error e => rw [hgs] at hrun; simp at hrun
  | ok s =>
    rw [hgs] at hrun
    cases s with
    | inr msg =>
      simp only [] at hrun
      have h1 : Outcome.skipped msg = out :=
        congrArg Prod.fst (Except.ok.inj hrun)
      rw [← h1] at hins
      simp [Outcome.isInserted] at hins
    | inl gll =>
      simp only [] at hrun
      cases hext : extractAddressCode st.is_building cfg.mapping
          cfg.addressPrefixes row with
      | error e => rw [hext] at hrun; simp at hrun
      | ok astep =>
        rw [hext] at hrun
        cases astep with
        | skip msg =>
          simp only [] at hrun
          have h1 : Outcome.skipped msg = out :=
            congrArg Prod.fst (Except.ok.inj hrun)
          rw [← h1] at hins
          simp [Outcome.isInserted] at hins
        | ok address =>
          simp only [] at hrun
          have haddr := extractAddressCode_ok_eq_none st.is_building cfg.mapping
            cfg.addressPrefixes row address hext
          subst haddr
          cases hmf : (!rowHas row cfg.mapping.geometry &&
              (!rowHas row cfg.mapping.latitude ||
               !rowHas row cfg.mapping.longitude)) with
          | true =>
            rw [hmf] at hrun
            rw [if_pos rfl] at hrun
            have h1 : Outcome.skipped (missingFieldsMsg cfg.mapping) = out :=
              congrArg Prod.fst (Except.ok.inj hrun)
            rw [← h1] at hins
            simp [Outcome.isInserted] at hins
          | false =>
            rw [hmf] at hrun
            rw [if_neg Bool.false_ne_true] at hrun
            cases hib : st.is_building with
            | false =>
              rw [hib] at hrun
              rw [if_neg Bool.false_ne_true] at hrun
              cases hcs : nonBuildingContainerStep db g cityId st cfg row
                  (g.municipalityAt (gll.2.2, gll.2.1))
                  (g.adminUnitAt (gll.2.2, gll.2.1)) gll.2.2 gll.2.1 gll.1
                  (resolveName row cfg) with
              | error e => rw [hcs] at hrun; simp at hrun
              | ok cstep =>
                rw [hcs] at hrun
                cases cstep with
                | updated foId dbu =>
                  simp only [] at hrun
                  have h1 : Outcome.updatedExisting foId = out :=
                    congrArg Prod.fst (Except.ok.inj hrun)
                  rw [← h1] at hins
                  simp [Outcome.isInserted] at hins
                | insertInto physId buildId how =>
                  simp only [] at hrun
                  obtain ⟨⟨t, hlk⟩, hfo⟩ := nbStep_insert_inv db g cityId st
                    cfg row (g.municipalityAt (gll.2.2, gll.2.1))
                    (g.adminUnitAt (gll.2.2, gll.2.1)) gll.2.2 gll.2.1 gll.1
                    (resolveName row cfg) physId buildId how hcs
                  have hdb1 : db1 = (insert_object db row physId
                      (resolveName row cfg) st cfg.mapping cfg.propertiesMapping
                      rc).2 := by
                    cases how <;> simp only [] at hrun <;>
                      exact (congrArg Prod.snd (Except.ok.inj hrun)).symm
                  obtain ⟨db2, hstep2⟩ := nb_found_idem db g cityId st cfg row
                    (g.municipalityAt (gll.2.2, gll.2.1))
                    (g.adminUnitAt (gll.2.2, gll.2.1)) gll.2.2 gll.2.1 gll.1
                    (resolveName row cfg) rc t physId hfoid hname hlk hfo
                  refine ⟨db2, ?_⟩
                  rw [hdb1]
                  unfold processRow
                  rw [hgs]
                  simp only []
                  rw [hext]
                  simp only []
                  rw [hmf]
                  rw [if_neg Bool.false_ne_true]
                  rw [hib]
                  rw [if_neg Bool.false_ne_true]
                  simp only [hstep2]
                | insertNewPhys =>
                  simp only [] at hrun
                  have hlk := nbStep_new_inv db g cityId st cfg row
                    (g.municipalityAt (gll.2.2, gll.2.1))
                    (g.adminUnitAt (gll.2.2, gll.2.1)) gll.2.2 gll.2.1 gll.1
                    (resolveName row cfg) hcs
                  cases hphys : insertPhysStep db g cityId st cfg row
                      Option.none (g.municipalityAt (gll.2.2, gll.2.1))
                      (g.adminUnitAt (gll.2.2, gll.2.1)) gll.2.2 gll.2.1 with
                  | error e => rw [hphys] at hrun; simp at hrun
                  | ok t =>
                    rw [hphys] at hrun
                    simp only [] at hrun
                    have hdb1 : db1 = (insert_object t.2.2 row t.1
                        (resolveName row cfg) st cfg.mapping
                        cfg.propertiesMapping rc).2 :=
                      (congrArg Prod.snd (Except.ok.inj hrun)).symm
                    obtain ⟨db2, hstep2⟩ := nb_new_idem db g cityId st cfg row
                      (g.municipalityAt (gll.2.2, gll.2.1))
                      (g.adminUnitAt (gll.2.2, gll.2.1)) gll.2.2 gll.2.1 gll.1
                      (resolveName row cfg) rc Option.none t hib hfoid hfop hbp
                      hname hcov hlk hphys
                    refine ⟨db2, ?_⟩
                    rw [hdb1]
                    unfold processRow
                    rw [hgs]
                    simp only []
                    rw [hext]
                    simp only []
                    rw [hmf]
                    rw [if_neg Bool.false_ne_true]
                    rw [hib]
                    rw [if_neg Bool.false_ne_true]
                    simp only [hstep2]
            | true =>
              rw [hib] at hrun
              rw [if_pos rfl] at hrun
              cases hcs : buildingContainerStep db g cityId st cfg row
                  Option.none (g.municipalityAt (gll.2.2, gll.2.1))
                  (g.adminUnitAt (gll.2.2, gll.2.1)) gll.2.2 gll.2.1 gll.1
                  (resolveName row cfg) with
              | error e => rw [hcs] at hrun; simp at hrun
              | ok cstep =>
                rw [hcs] at hrun
                cases cstep with
                | updated foId dbu =>
                  simp only [] at hrun
                  have h1 : Outcome.updatedExisting foId = out :=
                    congrArg Prod.fst (Except.ok.inj hrun)
                  rw [← h1] at hins
                  simp [Outcome.isInserted] at hins
                | insertInto physId buildId how =>
                  simp only [] at hrun
                  obtain ⟨⟨t, bId, ad2, hlk⟩, hfo⟩ := bStep_insert_inv db g
                    cityId st cfg row (g.municipalityAt (gll.2.2, gll.2.1))
                    (g.adminUnitAt (gll.2.2, gll.2.1)) gll.2.2 gll.2.1 gll.1
                    (resolveName row cfg) physId buildId how hcs
                  have hdb1 : db1 = (insert_object db row physId
                      (resolveName row cfg) st cfg.mapping cfg.propertiesMapping
                      rc).2 := by
                    cases how <;> simp only [] at hrun <;>
                      exact (congrArg Prod.snd (Except.ok.inj hrun)).symm
                  obtain ⟨db2, hstep2⟩ := b_found_idem db g cityId st cfg row
                    (g.municipalityAt (gll.2.2, gll.2.1))
                    (g.adminUnitAt (gll.2.2, gll.2.1)) gll.2.2 gll.2.1 gll.1
                    (resolveName row cfg) rc t physId bId ad2 hfoid hname hlk
                    hfo
                  refine ⟨db2, ?_⟩
                  rw [hdb1]
                  unfold processRow
                  rw [hgs]
                  simp only []
                  rw [hext]
                  simp only []
                  rw [hmf]
                  rw [if_neg Bool.false_ne_true]
                  rw [hib]
                  rw [if_pos rfl]
                  simp only [hstep2]
                | insertNewPhys =>
                  simp only [] at hrun
                  have hlk := bStep_new_inv db g cityId st cfg row
                    (g.municipalityAt (gll.2.2, gll.2.1))
                    (g.adminUnitAt (gll.2.2, gll.2.1)) gll.2.2 gll.2.1 gll.1
                    (resolveName row cfg) hcs
                  have hrg : rowHas row cfg.mapping.geometry = true := by
                    cases hrh : rowHas row cfg.mapping.geometry with
                    | true => rfl
                    | false =>
                      exfalso
                      unfold buildingGeomLookup at hlk
                      rw [hrh] at hlk
                      rw [if_neg Bool.false_ne_true] at hlk
                      simp [findBuildingByPoint] at hlk
                  cases hphys : insertPhysStep db g cityId st cfg row
                      Option.none (g.municipalityAt (gll.2.2, gll.2.1))
                      (g.adminUnitAt (gll.2.2, gll.2.1)) gll.2.2 gll.2.1 with
                  | error e => rw [hphys] at hrun; simp at hrun
                  | ok t =>
                    rw [hphys] at hrun
                    simp only [] at hrun
                    have hdb1 : db1 = (insert_object t.2.2 row t.1
                        (resolveName row cfg) st cfg.mapping
                        cfg.propertiesMapping rc).2 :=
                      (congrArg Prod.snd (Except.ok.inj hrun)).symm
                    obtain ⟨db2, hstep2⟩ := b_new_idem db g cityId st cfg row
                      (g.municipalityAt (gll.2.2, gll.2.1))
                      (g.adminUnitAt (gll.2.2, gll.2.1)) gll.2.2 gll.2.1 gll.1
                      (resolveName row cfg) rc Option.none t hib hrg hfoid hfop
                      hbp hpp hname hint hlk hphys
                    refine ⟨db2, ?_⟩
                    rw [hdb1]
                    unfold processRow
                    rw [hgs]
                    simp only []
                    rw [hext]
                    simp only []
                    rw [hmf]
                    rw [if_neg Bool.false_ne_true]
                    rw [hib]
                    rw [if_pos rfl]
                    simp only [hstep2]

/-- An oracle for the idempotence evaluation: every spatial predicate holds,
so the geometry stored from a blob is found again by that blob. -/
def c3Oracle : GeoOracle :=
  { geoDistance := fun _ _ => 0, centroidOf := fun _ => Option.none,
    blobIntersects := fun _ _ => true, blobCoveredBy := fun _ _ => true,
    pointIntersects := fun _ _ => true,
    storedOfBlob := fun b => .nonpoint "Polygon" b,
    municipalityAt := fun _ => Option.none, adminUnitAt := fun _ => Option.none }

/-- A well-formed coordinate row for the idempotence evaluation. -/
def c3Row : Row :=
  [("lat", .str "59"), ("lon", .str "30"), ("name", .str "Ларёк")]

/-- The database after the first run of the per-row body on `c3Row`. -/
def dbAfterC3 : DB :=
  match processRow demoDB c3Oracle 1 stCafe demoCfg 3 c3Row with
  | .ok p => p.2
  | .error _ => demoDB

/-- C3: the triple `(physical_object_id, city_service_type_id, name)` is the
de-duplication key.  First three conjuncts: whenever the container lookup
(non-building geometry lookup, building address match, or building geometry
lookup) resolves to a physical object already carrying a functional object
with the same service type and the same resolved name, the container block
is exactly `update_object` on that existing id.  Fourth conjunct: re-running
the per-row body on the database a successful insert produced yields an
updated-existing outcome for the very functional object the first run
created.  Fifth conjunct: such an update never grows the functional-objects
table — never a duplicate insert. -/
theorem C3_dedup_idempotence (db : DB) (g : GeoOracle) (cityId : Nat)
    (st : ServiceType) (cfg : BatchConfig) (row : Row)
    (hfoid : ∀ f ∈ db.functional_objects, f.id < db.nextFuncId)
    (hfop : ∀ f ∈ db.functional_objects, f.physical_object_id < db.nextPhysId)
    (hbp : ∀ b ∈ db.buildings, b.physical_object_id < db.nextPhysId)
    (hpp : ∀ p ∈ db.physical_objects, p.id < db.nextPhysId)
    (hname : pyEq (resolveName row cfg) (resolveName row cfg) = true)
    (hcov : ∀ blob, g.blobCoveredBy blob (g.storedOfBlob blob) = true)
    (hint : ∀ blob, g.blobIntersects blob (g.storedOfBlob blob) = true) :
    (∀ muni admin lon lat geomType t physId foId,
      nonBuildingLookup db g cityId cfg row muni admin lon lat =
        .ok (some (t, physId)) →
      findFunctionalObject db physId st.id (resolveName row cfg) = some foId →
      nonBuildingContainerStep db g cityId st cfg row muni admin lon lat
        geomType (resolveName row cfg) =
        (update_object db row foId (resolveName row cfg) cfg.mapping
          cfg.propertiesMapping cfg.now).map
          (fun u => ContainerStep.updated u.1 u.2)) ∧
    (∀ muni admin lon lat geomType a physId buildId foId, a ≠ "" →
      findBuildingByAddress db g cityId a lon lat = some (physId, buildId) →
      findFunctionalObject db physId st.id (resolveName row cfg) = some foId →
      buildingContainerStep db g cityId st cfg row (some a) muni admin lon lat
        geomType (resolveName row cfg) =
        (update_object db row foId (resolveName row cfg) cfg.mapping
          cfg.propertiesMapping cfg.now).map
          (fun u => ContainerStep.updated u.1 u.2)) ∧
    (∀ muni admin lon lat geomType t physId buildId ad2 foId,
      buildingGeomLookup db g cityId cfg row muni admin lon lat =
        .ok (some (t, physId, buildId, ad2)) →
      findFunctionalObject db physId st.id (resolveName row cfg) = some foId →
      buildingContainerStep db g cityId st cfg row Option.none muni admin lon
        lat geomType (resolveName row cfg) =
        (update_object db row foId (resolveName row cfg) cfg.mapping
          cfg.propertiesMapping cfg.now).map
          (fun u => ContainerStep.updated u.1 u.2)) ∧
    (∀ rc rc2 out db1, processRow db g cityId st cfg rc row = .ok (out, db1) →
      out.isInserted = true →
      ∃ db2, processRow db1 g cityId st cfg rc2 row =
        .ok (.updatedExisting db.nextFuncId, db2)) ∧
    (∀ fid fo, db.functional_objects.find? (fun f => f.id = fid) = some fo →
      ∃ dbu, update_object db row fid (resolveName row cfg) cfg.mapping
          cfg.propertiesMapping cfg.now = .ok (fid, dbu) ∧
        dbu.functional_objects.length = db.functional_objects.length) := by
  refine ⟨?_, ?_, ?_, ?_, ?_⟩
  · intro muni admin lon lat geomType t physId foId hlk hfo
    exact nbStep_dedup db g cityId st cfg row muni admin lon lat geomType
      (resolveName row cfg) t physId foId hlk hfo
  · intro muni admin lon lat geomType a physId buildId foId hne hfind hfo
    exact bStep_dedup_addr db g cityId st cfg row muni admin lon lat geomType
      (resolveName row cfg) a physId buildId foId hne hfind hfo
  · intro muni admin lon lat geomType t physId buildId ad2 foId hlk hfo
    exact bStep_dedup_geom db g cityId st cfg row muni admin lon lat geomType
      (resolveName row cfg) t physId buildId ad2 foId hlk hfo
  · intro rc rc2 out db1 hrun hins
    exact processRow_idem db g cityId st cfg rc rc2 row out db1 hfoid hfop hbp
      hpp hname hcov hint hrun hins
  · intro fid fo hfind
    obtain ⟨dbu, hupd, -, -, hlen, -, -⟩ := update_object_found db row fid
      (resolveName row cfg) cfg.mapping cfg.propertiesMapping cfg.now fo hfind
    exact ⟨dbu, hupd, hlen⟩

/-- C3 witness: on the empty demo database, the concrete coordinate row is
inserted as a new physical object with functional object 1 on the first run,
and the second run on the produced database updates exactly that functional
object. -/
theorem C3_dedup_idempotence_witness :
    processRow demoDB c3Oracle 1 stCafe demoCfg 3 c3Row =
      .ok (.insertedNew 1 1 Option.none, dbAfterC3) ∧
    (Outcome.insertedNew 1 1 Option.none).isInserted = true ∧
    ∃ db2, processRow dbAfterC3 c3Oracle 1 stCafe demoCfg 5 c3Row =
      .ok (.updatedExisting demoDB.nextFuncId, db2) := by
  have hrun : processRow demoDB c3Oracle 1 stCafe demoCfg 3 c3Row =
      .ok (.insertedNew 1 1 Option.none, dbAfterC3) := rfl
  have h := C3_dedup_idempotence demoDB c3Oracle 1 stCafe demoCfg c3Row
    (by simp [demoDB]) (by simp [demoDB]) (by simp [demoDB]) (by simp [demoDB])
    (by rfl) (fun _ => rfl) (fun _ => rfl)
  obtain ⟨db2, h2⟩ := h.2.2.2.1 3 5 (.insertedNew 1 1 Option.none) dbAfterC3
    hrun (by rfl)
  exact ⟨hrun, rfl, db2, h2⟩

end InsertServices
